import Mathlib

/-!
Verification of the geo-agri-analyst core (polygon sampling, prediction
aggregation, crop suitability scoring) against its natural-language
specification.  The Python source under
src/geo-agri-analyst/backend/app/ is shallowly embedded here:

* machine floats are embedded as exact rationals; the transcendental
  float helpers that a few functions call (math.cos, math.sqrt) are
  passed in as explicit function parameters, so every theorem below
  holds for every possible value of those helpers unless it
  instantiates them;
* the haversine great-circle distance (math.sin / math.asin / ...) is
  embedded over the real numbers;
* Python round (round-half-to-even) is embedded exactly, over any
  linear ordered field with a floor.
-/

namespace GeoAgri

/-- Round to the nearest integer, ties to even: the rounding mode of the
Python builtin round on exact values. -/
def rhe {α : Type} [LinearOrderedField α] [FloorRing α] (x : α) : ℤ :=
  if x - ⌊x⌋ < 1/2 then ⌊x⌋
  else if 1/2 < x - ⌊x⌋ then ⌊x⌋ + 1
  else if Even ⌊x⌋ then ⌊x⌋ else ⌊x⌋ + 1

/-- Embedding of Python round(x, d): scale by 10^d, round half to even,
scale back. -/
def pyRound {α : Type} [LinearOrderedField α] [FloorRing α] (x : α) (d : ℕ) : α :=
  ((rhe (x * 10 ^ d) : ℤ) : α) / 10 ^ d

theorem rhe_cases {α : Type} [LinearOrderedField α] [FloorRing α] (x : α) :
    rhe x = ⌊x⌋ ∨ rhe x = ⌊x⌋ + 1 := by
  unfold rhe
  split
  · exact Or.inl rfl
  split
  · exact Or.inr rfl
  split
  · exact Or.inl rfl
  · exact Or.inr rfl

theorem abs_rhe_sub_le {α : Type} [LinearOrderedField α] [FloorRing α] (x : α) :
    |(rhe x : α) - x| ≤ 1/2 := by
  have hfl : (0 : α) ≤ x - ⌊x⌋ := by
    have := Int.floor_le x
    linarith
  have hfu : x - ⌊x⌋ < 1 := by
    have := Int.lt_floor_add_one x
    linarith
  unfold rhe
  split
  · rw [abs_le]; constructor <;> push_cast <;> linarith
  · rename_i hge
    push_neg at hge
    split
    · rw [abs_le]; constructor <;> push_cast <;> linarith
    · rename_i hgt
      push_neg at hgt
      have heq : x - (⌊x⌋ : α) = 1/2 := le_antisymm hgt hge
      split
      · rw [abs_le]; constructor <;> push_cast <;> linarith
      · rw [abs_le]; constructor <;> push_cast <;> linarith

theorem abs_pyRound_sub_le {α : Type} [LinearOrderedField α] [FloorRing α]
    (x : α) (d : ℕ) : |pyRound x d - x| ≤ 1 / (2 * 10 ^ d) := by
  have h10 : (0:α) < 10 ^ d := by positivity
  have h := abs_rhe_sub_le (x * 10 ^ d)
  unfold pyRound
  rw [show ((rhe (x * 10 ^ d) : ℤ) : α) / 10 ^ d - x
        = ((rhe (x * 10 ^ d) : α) - x * 10 ^ d) / 10 ^ d by
      field_simp; ring]
  rw [abs_div, abs_of_pos h10, div_le_div_iff h10 (by positivity)]
  calc |(rhe (x * 10 ^ d) : α) - x * 10 ^ d| * (2 * 10 ^ d)
      ≤ (1/2) * (2 * 10 ^ d) := by
        apply mul_le_mul_of_nonneg_right h (by positivity)
    _ = 1 * 10 ^ d := by ring

theorem rhe_nonneg {α : Type} [LinearOrderedField α] [FloorRing α]
    (x : α) (hx : 0 ≤ x) : 0 ≤ rhe x := by
  rcases rhe_cases x with h | h <;> rw [h] <;>
    [exact Int.floor_nonneg.mpr hx;
     exact le_trans (Int.floor_nonneg.mpr hx) (by omega)]

theorem pyRound_nonneg {α : Type} [LinearOrderedField α] [FloorRing α]
    (x : α) (d : ℕ) (hx : 0 ≤ x) : 0 ≤ pyRound x d := by
  unfold pyRound
  apply div_nonneg _ (by positivity)
  exact_mod_cast rhe_nonneg _ (by positivity)

theorem le_of_rhe_lt {α : Type} [LinearOrderedField α] [FloorRing α]
    (x : α) (n : ℤ) (h : n < rhe x) : (n : α) + 1/2 ≤ x := by
  have hb := abs_rhe_sub_le x
  rw [abs_le] at hb
  have : (n : α) + 1 ≤ (rhe x : α) := by exact_mod_cast Int.add_one_le_of_lt h
  linarith

/-! ## polygon_utils.point_in_polygon (ray casting)

The Python loop starts with p1 = polygon_points[0] and iterates
i = 0 .. n with p2 = polygon_points[i % n]; that is, p2 successively
takes the values polygon_points ++ [polygon_points[0]].  The loop body
toggles the inside flag; the local variable xinters is assigned only
when p1y != p2y.  The plain embedding below gives xinters the dummy
value 0 in the branch where Python leaves it unassigned (the value is
never read there; the checked embedding proves exactly that). -/

/-- Coordinate pair (lat, lng) as exact rationals. -/
abbrev Pt := ℚ × ℚ

/-- Body of the ray-casting loop of point_in_polygon: state is
(inside flag, previous vertex p1); p2 is the current vertex. -/
def pipStep (x y : ℚ) (st : Bool × Pt) (p2 : Pt) : Bool × Pt :=
  let inside := st.1
  let p1x := st.2.1; let p1y := st.2.2
  let p2x := p2.1; let p2y := p2.2
  let inside' :=
    if y > min p1y p2y ∧ y ≤ max p1y p2y ∧ x ≤ max p1x p2x then
      let xinters := if p1y ≠ p2y then (y - p1y) * (p2x - p1x) / (p2y - p1y) + p1x else 0
      if p1x = p2x ∨ x ≤ xinters then !inside else inside
    else inside
  (inside', p2)

/-- Embedding of polygon_utils.point_in_polygon.  On the empty polygon
the Python code raises IndexError; the embedding returns false there
(no caller in the source passes an empty polygon). -/
def point_in_polygon (point : Pt) (polygon_points : List Pt) : Bool :=
  match polygon_points with
  | [] => false
  | p0 :: _ =>
      ((polygon_points ++ [p0]).foldl (pipStep point.1 point.2) (false, p0)).1

/-- Division that signals division by zero, for the checked embedding. -/
def checkedDiv (a b : ℚ) : Option ℚ := if b = 0 then none else some (a / b)

/-- Checked body of the ray-casting loop: the state additionally carries
the Python local xinters as an Option (none = not yet assigned); the
result is none if the body would divide by zero or read xinters while
it is unassigned. -/
def pipStepChecked (x y : ℚ) (st : Bool × Pt × Option ℚ) (p2 : Pt) :
    Option (Bool × Pt × Option ℚ) :=
  let inside := st.1
  let p1x := st.2.1.1; let p1y := st.2.1.2
  let xi0 := st.2.2
  let p2x := p2.1; let p2y := p2.2
  if y > min p1y p2y ∧ y ≤ max p1y p2y ∧ x ≤ max p1x p2x then
    let xiNew : Option (Option ℚ) :=
      if p1y ≠ p2y then
        (checkedDiv ((y - p1y) * (p2x - p1x)) (p2y - p1y)).map (fun q => some (q + p1x))
      else some xi0
    match xiNew with
    | none => none
    | some xi =>
        let cond : Option Bool :=
          if p1x = p2x then some true
          else xi.map (fun v => decide (x ≤ v))
        match cond with
        | none => none
        | some c => some (if c then !inside else inside, p2, xi)
  else some (inside, p2, xi0)

/-- Checked embedding of point_in_polygon: returns none when the Python
code would raise (empty polygon, division by zero, or a read of the
unassigned local xinters). -/
def point_in_polygon_checked (point : Pt) (polygon_points : List Pt) : Option Bool :=
  match polygon_points with
  | [] => none
  | p0 :: _ =>
      ((polygon_points ++ [p0]).foldlM (pipStepChecked point.1 point.2)
        (false, p0, none)).map (fun st => st.1)

theorem pipStepChecked_eq_pipStep (x y : ℚ) (inside : Bool) (p1 p2 : Pt)
    (xi0 : Option ℚ) :
    pipStepChecked x y (inside, p1, xi0) p2 =
      some ((pipStep x y (inside, p1) p2).1, (pipStep x y (inside, p1) p2).2,
        (pipStepChecked x y (inside, p1, xi0) p2).elim none (fun st => st.2.2)) := by
  unfold pipStepChecked pipStep checkedDiv
  by_cases hg : y > min p1.2 p2.2 ∧ y ≤ max p1.2 p2.2 ∧ x ≤ max p1.1 p2.1
  · have hne : p1.2 ≠ p2.2 := by
      intro he
      rcases hg with ⟨h1, h2, _⟩
      have hmin : p1.2 ⊓ p2.2 = p2.2 := by rw [he, min_self]
      have hmax : p1.2 ⊔ p2.2 = p2.2 := by rw [he, max_self]
      rw [hmin] at h1
      rw [hmax] at h2
      exact absurd h2 (not_le.mpr h1)
    have hdiv : p2.2 - p1.2 ≠ 0 := by
      intro h
      have h2 : p2.2 = p1.2 := sub_eq_zero.mp h
      exact hne h2.symm
    by_cases hx : p1.1 = p2.1 <;> simp [hg, hne, hdiv, hx] <;>
      split_ifs <;> simp
  · simp only [if_neg hg, Option.elim_some]

/-- Invariant: folding the checked loop body never fails and tracks the
plain loop body. -/
theorem foldlM_pipStepChecked (x y : ℚ) (l : List Pt) :
    ∀ (inside : Bool) (p1 : Pt) (xi0 : Option ℚ),
    ∃ xi1 : Option ℚ,
      l.foldlM (pipStepChecked x y) (inside, p1, xi0) =
        some ((l.foldl (pipStep x y) (inside, p1)).1,
          (l.foldl (pipStep x y) (inside, p1)).2, xi1) := by
  induction l with
  | nil => intro inside p1 xi0; exact ⟨xi0, rfl⟩
  | cons p2 t ih =>
      intro inside p1 xi0
      rw [List.foldlM_cons, pipStepChecked_eq_pipStep]
      obtain ⟨xi1, h⟩ := ih (pipStep x y (inside, p1) p2).1
        (pipStep x y (inside, p1) p2).2
        ((pipStepChecked x y (inside, p1, xi0) p2).elim none (fun st => st.2.2))
      exact ⟨xi1, by simpa using h⟩

/-! ## polygon_utils.calculate_polygon_bounds and the Shoelace area -/

/-- Minimum of a list of rationals, as Python min(list); 0 on the empty
list (where Python raises). -/
def listMin : List ℚ → ℚ
  | [] => 0
  | x :: xs => xs.foldl min x

/-- Maximum of a list of rationals, as Python max(list); 0 on the empty
list (where Python raises). -/
def listMax : List ℚ → ℚ
  | [] => 0
  | x :: xs => xs.foldl max x

/-- Embedding of polygon_utils.calculate_polygon_bounds:
(min_lat, max_lat, min_lng, max_lng). -/
def calculate_polygon_bounds (points : List Pt) : ℚ × ℚ × ℚ × ℚ :=
  (listMin (points.map Prod.fst), listMax (points.map Prod.fst),
   listMin (points.map Prod.snd), listMax (points.map Prod.snd))

/-- Cross term of the Shoelace formula for one edge:
x_i * y_j - x_j * y_i. -/
def cross (p q : ℚ × ℚ) : ℚ := p.1 * q.2 - q.1 * p.2

/-- Sum of cross terms over consecutive pairs of an (open) vertex path. -/
def pathSum : List (ℚ × ℚ) → ℚ
  | [] => 0
  | [_] => 0
  | p :: q :: t => cross p q + pathSum (q :: t)

/-- Cyclic Shoelace sum: the source loop `for i in range(n): j = (i+1) % n`
adds cross terms over consecutive vertices and closes the cycle from the
last vertex back to the first; appending the first vertex realizes the
wrap-around index (i+1) % n. -/
def shoelace : List (ℚ × ℚ) → ℚ
  | [] => 0
  | p :: t => pathSum ((p :: t) ++ [p])

theorem pathSum_append_last (l : List (ℚ × ℚ)) (x : ℚ × ℚ) :
    pathSum (l ++ [x]) =
      pathSum l + (match l.getLast? with | none => 0 | some y => cross y x) := by
  induction l with
  | nil => simp [pathSum]
  | cons a t ih =>
      cases t with
      | nil => simp [pathSum]
      | cons b t2 =>
          have : (a :: b :: t2) ++ [x] = a :: ((b :: t2) ++ [x]) := rfl
          rw [this]
          show cross a b + pathSum ((b :: t2) ++ [x]) = _
          rw [ih]
          have hlast : (a :: b :: t2).getLast? = (b :: t2).getLast? := by
            simp [List.getLast?_cons_cons]
          rw [hlast]
          cases hgl : (b :: t2).getLast? <;> simp [pathSum] <;> try ring

theorem cross_swap (p q : ℚ × ℚ) : cross q p = -cross p q := by
  unfold cross; ring

theorem pathSum_reverse (l : List (ℚ × ℚ)) : pathSum l.reverse = -pathSum l := by
  induction l with
  | nil => simp [pathSum]
  | cons a t ih =>
      rw [List.reverse_cons, pathSum_append_last, ih]
      cases t with
      | nil => simp [pathSum]
      | cons b t2 =>
          have hl : (b :: t2).reverse.getLast? = some b := by
            rw [List.getLast?_reverse]
            rfl
          rw [hl]
          show -pathSum (b :: t2) + cross b a = -(cross a b + pathSum (b :: t2))
          rw [cross_swap]
          ring

theorem shoelace_reverse (l : List (ℚ × ℚ)) : shoelace l.reverse = -shoelace l := by
  cases l with
  | nil => simp [shoelace]
  | cons h t =>
      cases t with
      | nil => simp [shoelace, pathSum, cross]
      | cons b t2 =>
          -- m is the last vertex; the reversed cycle is reverse (m :: l)
          -- up to the closing vertex.
          set l := h :: b :: t2 with hldef
          have hne : l ≠ [] := by simp [hldef]
          obtain ⟨m, hm⟩ : ∃ m, l.getLast? = some m := ⟨l.getLast hne, List.getLast?_eq_getLast l hne⟩
          have hrev : l.reverse = m :: (l.reverse.tail) := by
            have : l.reverse.head? = some m := by rw [List.head?_reverse]; exact hm
            cases hr : l.reverse with
            | nil => simp [hr] at this
            | cons a r => rw [hr] at this; simp at this; rw [this]; rfl
          rw [hrev]
          show pathSum ((m :: l.reverse.tail) ++ [m]) = -shoelace l
          have h1 : (m :: l.reverse.tail) ++ [m] = (l.reverse ++ [m] : List (ℚ × ℚ)) := by
            rw [hrev]; simp
          have h2 : (l.reverse ++ [m] : List (ℚ × ℚ)) = (m :: l).reverse := by
            simp
          rw [h1, h2, pathSum_reverse]
          have h3 : pathSum (m :: l) = cross m h + pathSum l := by
            rw [hldef]; rfl
          have h4 : shoelace l = pathSum l + cross m h := by
            show shoelace (h :: b :: t2) = _
            show pathSum ((h :: b :: t2) ++ [h]) = _
            rw [pathSum_append_last]
            rw [hldef] at hm
            rw [hm]
          rw [h3, h4]
          ring

/-! ## The two area functions

polygon_utils.estimate_polygon_area_km2 and main.calculate_polygon_area
share the same body: project the vertices to a planar frame centred on
the arithmetic-mean centroid, apply the Shoelace formula, take the
absolute value, halve, and convert units (km2 resp. rounded hectares).
The float helper math.cos(math.radians(center_lat)) is passed in as the
parameter cosr, so the theorems hold for every value it could take. -/

/-- Projection of the vertex list to local Cartesian (x, y) metre
coordinates, shared by both area functions. -/
def projectXY (cosr : ℚ → ℚ) (points : List Pt) : List (ℚ × ℚ) :=
  let n : ℚ := points.length
  let center_lat := (points.map Prod.fst).sum / n
  let center_lng := (points.map Prod.snd).sum / n
  let lat_to_m : ℚ := 111320
  let lng_to_m : ℚ := 111320 * cosr center_lat
  points.map (fun p => ((p.2 - center_lng) * lng_to_m, (p.1 - center_lat) * lat_to_m))

/-- Embedding of polygon_utils.estimate_polygon_area_km2 (area in km²). -/
def estimate_polygon_area_km2 (cosr : ℚ → ℚ) (points : List Pt) : ℚ :=
  if points.length < 3 then 0
  else |shoelace (projectXY cosr points)| / 2 / 1000000

/-- Embedding of main.calculate_polygon_area (area in hectares, rounded
to 2 decimals). -/
def calculate_polygon_area (cosr : ℚ → ℚ) (points : List Pt) : ℚ :=
  if points.length < 3 then 0
  else pyRound (|shoelace (projectXY cosr points)| / 2 / 10000) 2

theorem projectXY_reverse (cosr : ℚ → ℚ) (points : List Pt) :
    projectXY cosr points.reverse = (projectXY cosr points).reverse := by
  unfold projectXY
  simp [List.map_reverse, List.sum_reverse]

theorem abs_shoelace_reverse (l : List (ℚ × ℚ)) :
    |shoelace l.reverse| = |shoelace l| := by
  rw [shoelace_reverse, abs_neg]

/-- C9: for every polygon with at least 3 vertices (in particular every
simple one) and every value of the float cosine helper, both area
functions return a nonnegative result that is unchanged when the vertex
order is reversed (clockwise vs counterclockwise input gives the same
area). -/
theorem area_nonneg_and_reversal_invariant (cosr : ℚ → ℚ) (points : List Pt)
    (h3 : 3 ≤ points.length) :
    0 ≤ estimate_polygon_area_km2 cosr points ∧
    estimate_polygon_area_km2 cosr points.reverse
      = estimate_polygon_area_km2 cosr points ∧
    0 ≤ calculate_polygon_area cosr points ∧
    calculate_polygon_area cosr points.reverse
      = calculate_polygon_area cosr points := by
  have hlt : ¬ points.length < 3 := not_lt.mpr h3
  have hltr : ¬ points.reverse.length < 3 := by
    rw [List.length_reverse]; exact hlt
  have hkey : |shoelace (projectXY cosr points.reverse)|
      = |shoelace (projectXY cosr points)| := by
    rw [projectXY_reverse, abs_shoelace_reverse]
  refine ⟨?_, ?_, ?_, ?_⟩
  · rw [estimate_polygon_area_km2, if_neg hlt]
    positivity
  · rw [estimate_polygon_area_km2, estimate_polygon_area_km2,
      if_neg hlt, if_neg hltr, hkey]
  · rw [calculate_polygon_area, if_neg hlt]
    apply pyRound_nonneg
    positivity
  · rw [calculate_polygon_area, calculate_polygon_area,
      if_neg hlt, if_neg hltr, hkey]

/-- Witness for C9 at a concrete right triangle with the cosine helper
instantiated at the constant 1 (its float value at centroid latitude 0
scale does not matter for the statement). -/
theorem area_nonneg_and_reversal_invariant_witness :
    3 ≤ ([((0:ℚ),(0:ℚ)), (0,1), (1,0)] : List Pt).length ∧
    (0 ≤ estimate_polygon_area_km2 (fun _ => 1) [((0:ℚ),(0:ℚ)), (0,1), (1,0)] ∧
     estimate_polygon_area_km2 (fun _ => 1) ([((0:ℚ),(0:ℚ)), (0,1), (1,0)] : List Pt).reverse
       = estimate_polygon_area_km2 (fun _ => 1) [((0:ℚ),(0:ℚ)), (0,1), (1,0)] ∧
     0 ≤ calculate_polygon_area (fun _ => 1) [((0:ℚ),(0:ℚ)), (0,1), (1,0)] ∧
     calculate_polygon_area (fun _ => 1) ([((0:ℚ),(0:ℚ)), (0,1), (1,0)] : List Pt).reverse
       = calculate_polygon_area (fun _ => 1) [((0:ℚ),(0:ℚ)), (0,1), (1,0)]) :=
  ⟨by decide,
   area_nonneg_and_reversal_invariant (fun _ => 1) [((0:ℚ),(0:ℚ)), (0,1), (1,0)] (by decide)⟩

/-- C8: for every polygon with at least one vertex and every query
point, the ray-casting loop runs to completion and returns a boolean:
the checked semantics (which signals division by zero and any read of
the conditionally assigned local xinters while unassigned, including on
vertical and horizontal edges) never fails and agrees with the plain
embedding. -/
theorem point_in_polygon_checked_total (point : Pt) (polygon_points : List Pt)
    (h : polygon_points ≠ []) :
    point_in_polygon_checked point polygon_points
      = some (point_in_polygon point polygon_points) := by
  cases polygon_points with
  | nil => exact absurd rfl h
  | cons p0 t =>
      obtain ⟨xi1, hfold⟩ :=
        foldlM_pipStepChecked point.1 point.2 ((p0 :: t) ++ [p0]) false p0 none
      show (List.foldlM (pipStepChecked point.1 point.2) (false, p0, none)
          ((p0 :: t) ++ [p0])).map (fun st => st.1)
        = some (List.foldl (pipStep point.1 point.2) (false, p0) ((p0 :: t) ++ [p0])).1
      rw [hfold]
      rfl

/-- Witness for C8 at a concrete square containing both vertical and
horizontal edges. -/
theorem point_in_polygon_checked_total_witness :
    (([((0:ℚ),(0:ℚ)), (0,2), (2,2), (2,0)] : List Pt) ≠ []) ∧
    point_in_polygon_checked (1,1) [((0:ℚ),(0:ℚ)), (0,2), (2,2), (2,0)]
      = some (point_in_polygon (1,1) [((0:ℚ),(0:ℚ)), (0,2), (2,2), (2,0)]) :=
  ⟨by decide,
   point_in_polygon_checked_total (1,1) [((0:ℚ),(0:ℚ)), (0,2), (2,2), (2,0)] (by decide)⟩

/-! ## polygon_utils.generate_grid_samples -/

/-- Embedding of polygon_utils.calculate_optimal_grid_spacing.  The
float helper math.sqrt is passed in as the parameter sqrtA. -/
def calculate_optimal_grid_spacing (sqrtA : ℚ → ℚ) (polygon_area_km2 : ℚ)
    (target_samples : ℕ) : ℚ :=
  if polygon_area_km2 ≤ 0 then 1/1000
  else max (1/2000) (min (sqrtA (polygon_area_km2 / target_samples) / 111) (1/100))

/-- Arithmetic progression lo, lo+step, lo+2*step, ...; closed form of
the source loop `lat = lo; while lat <= hi: ...; lat += step` (see
floatRange_loop below for the loop recurrence). -/
def floatRange (lo hi step : ℚ) : List ℚ :=
  (List.range (if 0 < step ∧ lo ≤ hi then (⌊(hi - lo) / step⌋).toNat + 1 else 0)).map
    (fun k : ℕ => lo + (k : ℚ) * step)

/-- Fidelity of floatRange to the source while-loop: for a positive
step it satisfies exactly the loop recurrence. -/
theorem floatRange_loop (lo hi step : ℚ) (hstep : 0 < step) :
    floatRange lo hi step =
      if lo ≤ hi then lo :: floatRange (lo + step) hi step else [] := by
  by_cases hle : lo ≤ hi
  · rw [if_pos hle]
    unfold floatRange
    rw [if_pos ⟨hstep, hle⟩]
    by_cases hle2 : lo + step ≤ hi
    · rw [if_pos ⟨hstep, hle2⟩]
      have hge1 : (1:ℚ) ≤ (hi - lo) / step := by
        rw [le_div_iff hstep]
        linarith
      have hfl : ⌊(hi - (lo + step)) / step⌋ = ⌊(hi - lo) / step⌋ - 1 := by
        have : (hi - (lo + step)) / step = (hi - lo) / step - 1 := by
          field_simp
          ring
        rw [this, Int.floor_sub_one]
      have hpos : 1 ≤ ⌊(hi - lo) / step⌋ := by
        have := Int.le_floor.mpr (by exact_mod_cast hge1)
        exact_mod_cast this
      have htn : (⌊(hi - lo) / step⌋).toNat + 1
          = ((⌊(hi - (lo + step)) / step⌋).toNat + 1) + 1 := by
        rw [hfl]
        omega
      rw [htn, List.range_succ_eq_map]
      simp only [List.map_cons, List.map_map]
      congr 1
      · norm_num
      · apply List.map_congr_left
        intro k _
        simp only [Function.comp_apply]
        push_cast
        ring
    · rw [if_neg (by
        intro hc
        exact hle2 hc.2)]
      have h0 : ⌊(hi - lo) / step⌋ = 0 := by
        apply Int.floor_eq_zero_iff.mpr
        constructor
        · apply div_nonneg (by linarith) (le_of_lt hstep)
        · rw [div_lt_one hstep]
          push_neg at hle2
          linarith
      rw [h0]
      simp [List.range_succ]
  · rw [if_neg hle]
    unfold floatRange
    rw [if_neg (by
      intro hc
      exact hle hc.2)]
    simp

/-- Arithmetic-mean centroid of the polygon vertices, as computed inline
by generate_grid_samples when the grid produced too few samples. -/
def polygonCentroid (polygon_points : List Pt) : Pt :=
  ((polygon_points.map Prod.fst).sum / polygon_points.length,
   (polygon_points.map Prod.snd).sum / polygon_points.length)

/-- Indices selected by np.linspace(0, n-1, m, dtype=int): m evenly
spaced values from 0 to n-1, truncated to integers (modelled with exact
rational spacing, so index i maps to i*(n-1)/(m-1) rounded down). -/
def linspaceIdx (n m : ℕ) : List ℕ :=
  if m = 1 then [0]
  else (List.range m).map (fun i => i * (n - 1) / (m - 1))

/-- Embedding of polygon_utils.generate_grid_samples.  cosr and sqrtA
are the float helpers math.cos(math.radians .) and math.sqrt used by
the area and spacing computations. -/
def generate_grid_samples (cosr sqrtA : ℚ → ℚ) (polygon_points : List Pt)
    (max_samples min_samples : ℕ) : List Pt :=
  if polygon_points.length < 3 then []
  else
    let b := calculate_polygon_bounds polygon_points
    let min_lat := b.1; let max_lat := b.2.1
    let min_lng := b.2.2.1; let max_lng := b.2.2.2
    let area_km2 := estimate_polygon_area_km2 cosr polygon_points
    let target_samples :=
      if area_km2 < 1/100 then min_samples
      else if area_km2 < 1/2 then min 15 max_samples
      else if area_km2 < 2 then min 30 max_samples
      else max_samples
    let spacing := calculate_optimal_grid_spacing sqrtA area_km2 target_samples
    let sample_points :=
      (floatRange min_lat max_lat spacing).foldl (fun acc lat =>
        acc ++ ((floatRange min_lng max_lng spacing).filterMap (fun lng =>
          if point_in_polygon (lat, lng) polygon_points then some (lat, lng)
          else none))) []
    let sample_points2 :=
      if sample_points.length < min_samples then
        sample_points ++ [polygonCentroid polygon_points]
      else sample_points
    if sample_points2.length > max_samples then
      (linspaceIdx sample_points2.length max_samples).map
        (fun i => sample_points2.getD i (0, 0))
    else sample_points2

theorem mem_foldl_append {α β : Type} (f : α → List β) (l : List α)
    (init : List β) (p : β)
    (hp : p ∈ l.foldl (fun acc a => acc ++ f a) init) :
    p ∈ init ∨ ∃ a, a ∈ l ∧ p ∈ f a := by
  induction l generalizing init with
  | nil => exact Or.inl hp
  | cons a t ih =>
      rcases ih (init ++ f a) hp with h | h
      · rcases List.mem_append.mp h with h2 | h2
        · exact Or.inl h2
        · exact Or.inr ⟨a, List.mem_cons_self a t, h2⟩
      · obtain ⟨b, hb, hpb⟩ := h
        exact Or.inr ⟨b, List.mem_cons_of_mem a hb, hpb⟩

theorem linspaceIdx_length (n m : ℕ) :
    (linspaceIdx n m).length = if m = 1 then 1 else m := by
  unfold linspaceIdx
  split <;> simp

theorem linspaceIdx_lt (n m i : ℕ) (hmn : m < n) (hi : i ∈ linspaceIdx n m) :
    i < n := by
  unfold linspaceIdx at hi
  split at hi
  · simp at hi
    omega
  · simp only [List.mem_map, List.mem_range] at hi
    obtain ⟨k, hk, rfl⟩ := hi
    rename_i hm1
    have h1 : k * (n - 1) / (m - 1) ≤ (m - 1) * (n - 1) / (m - 1) :=
      Nat.div_le_div_right (Nat.mul_le_mul_right _ (by omega))
    have h2 : (m - 1) * (n - 1) / (m - 1) = n - 1 :=
      Nat.mul_div_cancel_left _ (by omega)
    omega

theorem getD_mem_of_lt {α : Type} (l : List α) (i : ℕ) (d : α)
    (h : i < l.length) : l.getD i d ∈ l := by
  rw [List.getD_eq_getElem l d h]
  exact List.getElem_mem h

/-- Behaviour of the last two stages of generate_grid_samples
(centroid fallback already applied, then the even-index down-sampling)
on an arbitrary kept set. -/
theorem sample_stage (sp2 : List Pt) (maxS : ℕ) (C : Pt) (P : Pt → Prop)
    (hmem : ∀ p ∈ sp2, P p ∨ p = C) (hne : sp2 ≠ []) (hmax : 1 ≤ maxS) :
    let r := if sp2.length > maxS then
        (linspaceIdx sp2.length maxS).map (fun i => sp2.getD i (0, 0))
      else sp2
    r.length ≤ maxS ∧ 1 ≤ r.length ∧ ∀ p ∈ r, P p ∨ p = C := by
  intro r
  by_cases hbig : sp2.length > maxS
  · have hr : r = (linspaceIdx sp2.length maxS).map (fun i => sp2.getD i (0, 0)) := by
      simp only [r, if_pos hbig]
    have hlen : r.length = if maxS = 1 then 1 else maxS := by
      rw [hr, List.length_map, linspaceIdx_length]
    refine ⟨?_, ?_, ?_⟩
    · rw [hlen]; split <;> omega
    · rw [hlen]; split <;> omega
    · intro p hp
      rw [hr] at hp
      simp only [List.mem_map] at hp
      obtain ⟨i, hi, rfl⟩ := hp
      exact hmem _ (getD_mem_of_lt sp2 i (0, 0) (linspaceIdx_lt sp2.length maxS i hbig hi))
  · have hr : r = sp2 := by simp only [r, if_neg hbig]
    refine ⟨?_, ?_, ?_⟩
    · rw [hr]; omega
    · rw [hr]
      have := List.length_pos.mpr hne
      omega
    · intro p hp
      rw [hr] at hp
      exact hmem p hp

/-- C1 (amended): for every polygon with at least 3 vertices, every
configuration 1 <= minSamples <= maxSamples and every value of the
float helpers, generate_grid_samples returns at least 1 and at most
maxSamples points, and every returned point either passes
point_in_polygon or is the appended centroid.  (The minSamples lower
bound of the original claim fails: only a single centroid is appended
no matter how large the shortfall — see the counterexample.) -/
theorem generate_grid_samples_bounds (cosr sqrtA : ℚ → ℚ)
    (polygon_points : List Pt) (max_samples min_samples : ℕ)
    (h3 : 3 ≤ polygon_points.length)
    (hmin : 1 ≤ min_samples) (hmm : min_samples ≤ max_samples) :
    (generate_grid_samples cosr sqrtA polygon_points max_samples min_samples).length
      ≤ max_samples ∧
    1 ≤ (generate_grid_samples cosr sqrtA polygon_points max_samples min_samples).length ∧
    ∀ p ∈ generate_grid_samples cosr sqrtA polygon_points max_samples min_samples,
      point_in_polygon p polygon_points = true ∨ p = polygonCentroid polygon_points := by
  have hlen : ¬ polygon_points.length < 3 := not_lt.mpr h3
  unfold generate_grid_samples
  rw [if_neg hlen]
  set b := calculate_polygon_bounds polygon_points with hb
  set area_km2 := estimate_polygon_area_km2 cosr polygon_points with harea
  set target_samples :=
    if area_km2 < 1/100 then min_samples
    else if area_km2 < 1/2 then min 15 max_samples
    else if area_km2 < 2 then min 30 max_samples
    else max_samples with htarget
  set spacing := calculate_optimal_grid_spacing sqrtA area_km2 target_samples with hspacing
  set sample_points :=
    (floatRange b.1 b.2.1 spacing).foldl (fun acc lat =>
      acc ++ ((floatRange b.2.2.1 b.2.2.2 spacing).filterMap (fun lng =>
        if point_in_polygon (lat, lng) polygon_points then some (lat, lng)
        else none))) [] with hsp
  have hspmem : ∀ p ∈ sample_points, point_in_polygon p polygon_points = true := by
    intro p hp
    rcases mem_foldl_append _ _ _ _ hp with h | ⟨lat, _, hpin⟩
    · simp at h
    · simp only [List.mem_filterMap] at hpin
      obtain ⟨lng, _, hif⟩ := hpin
      by_cases hin : point_in_polygon (lat, lng) polygon_points = true
      · rw [if_pos hin] at hif
        cases hif
        exact hin
      · rw [if_neg hin] at hif
        cases hif
  set sample_points2 :=
    if sample_points.length < min_samples then
      sample_points ++ [polygonCentroid polygon_points]
    else sample_points with hsp2
  have hmem2 : ∀ p ∈ sample_points2,
      point_in_polygon p polygon_points = true ∨ p = polygonCentroid polygon_points := by
    intro p hp
    rw [hsp2] at hp
    split at hp
    · rcases List.mem_append.mp hp with h | h
      · exact Or.inl (hspmem p h)
      · simp at h
        exact Or.inr h
    · exact Or.inl (hspmem p hp)
  have hne2 : sample_points2 ≠ [] := by
    rw [hsp2]
    split
    · simp
    · rename_i hge
      push_neg at hge
      intro hnil
      rw [hnil] at hge
      simp at hge
      omega
  exact sample_stage sample_points2 max_samples (polygonCentroid polygon_points)
    (fun p => point_in_polygon p polygon_points = true) hmem2 hne2 (le_trans hmin hmm)

/-- Witness for the amended C1 at a concrete triangle with
minSamples = 1, maxSamples = 3. -/
theorem generate_grid_samples_bounds_witness :
    3 ≤ ([((0:ℚ),(0:ℚ)), (0,1), (1,0)] : List Pt).length ∧ 1 ≤ 1 ∧ 1 ≤ 3 ∧
    ((generate_grid_samples (fun _ => 1) (fun _ => 0)
        [((0:ℚ),(0:ℚ)), (0,1), (1,0)] 3 1).length ≤ 3 ∧
     1 ≤ (generate_grid_samples (fun _ => 1) (fun _ => 0)
        [((0:ℚ),(0:ℚ)), (0,1), (1,0)] 3 1).length ∧
     ∀ p ∈ generate_grid_samples (fun _ => 1) (fun _ => 0)
        [((0:ℚ),(0:ℚ)), (0,1), (1,0)] 3 1,
       point_in_polygon p [((0:ℚ),(0:ℚ)), (0,1), (1,0)] = true ∨
       p = polygonCentroid [((0:ℚ),(0:ℚ)), (0,1), (1,0)]) :=
  ⟨by decide, by decide, by decide,
   generate_grid_samples_bounds (fun _ => 1) (fun _ => 0)
     [((0:ℚ),(0:ℚ)), (0,1), (1,0)] 3 1 (by decide) (by decide) (by decide)⟩

/-- Counterexample to C1 as stated: a degenerate but 3-vertex polygon
whose bounding-box grid contains no interior point.  The kept set is
empty, exactly one centroid is appended, and the function returns a
single sample although minSamples = 5 (and 1 <= 5 <= 50).  The float
helpers are instantiated at their true values for this input: the
centroid latitude is 0 and math.cos(0) = 1.0 exactly; the sqrt helper
is never consulted because the computed area is 0. -/
theorem generate_grid_samples_min_samples_counterexample :
    (generate_grid_samples (fun _ => 1) (fun _ => 0)
      [(-1/1000, (0:ℚ)), (0, 0), (1/1000, 0)] 50 5).length < 5 := by
  norm_num [generate_grid_samples, calculate_polygon_bounds, listMin, listMax,
    estimate_polygon_area_km2, projectXY, shoelace, pathSum, cross,
    calculate_optimal_grid_spacing, floatRange, point_in_polygon, pipStep,
    linspaceIdx, polygonCentroid, List.range_succ]

/-! ## main.haversine_distance and main.calculate_polygon_perimeter

The haversine distance is pure float trigonometry; it is embedded over
the real numbers (math.radians x = x * pi / 180). -/

noncomputable def haversine_distance (lat1 lon1 lat2 lon2 : ℝ) : ℝ :=
  let R : ℝ := 6371
  let lat1_rad := lat1 * Real.pi / 180
  let lon1_rad := lon1 * Real.pi / 180
  let lat2_rad := lat2 * Real.pi / 180
  let lon2_rad := lon2 * Real.pi / 180
  let dlat := lat2_rad - lat1_rad
  let dlon := lon2_rad - lon1_rad
  let a := Real.sin (dlat / 2) ^ 2
    + Real.cos lat1_rad * Real.cos lat2_rad * Real.sin (dlon / 2) ^ 2
  let c := 2 * Real.arcsin (Real.sqrt a)
  R * c

/-- Embedding of main.calculate_polygon_perimeter: the edge loop
`p1 = points[i], p2 = points[(i+1) % n]` pairs each vertex with its
cyclic successor, realized as zipping the list with its rotation by
one.  Returns 0 for fewer than 2 points, and the rounded edge sum
otherwise. -/
noncomputable def calculate_polygon_perimeter (points : List (ℝ × ℝ)) : ℝ :=
  if points.length < 2 then 0
  else
    pyRound (((points.zip (points.rotate 1)).map
      (fun pq => haversine_distance pq.1.1 pq.1.2 pq.2.1 pq.2.2)).sum) 3

theorem haversine_distance_symm (lat1 lon1 lat2 lon2 : ℝ) :
    haversine_distance lat2 lon2 lat1 lon1 = haversine_distance lat1 lon1 lat2 lon2 := by
  simp only [haversine_distance]
  have h1 : (lat1 * Real.pi / 180 - lat2 * Real.pi / 180) / 2
      = -((lat2 * Real.pi / 180 - lat1 * Real.pi / 180) / 2) := by ring
  have h2 : (lon1 * Real.pi / 180 - lon2 * Real.pi / 180) / 2
      = -((lon2 * Real.pi / 180 - lon1 * Real.pi / 180) / 2) := by ring
  rw [h1, h2, Real.sin_neg, Real.sin_neg]
  ring_nf

/-- C2 (amended): polygons with fewer than 3 points yield area 0 (both
area functions) and an empty sample set, and the perimeter is 0 for
fewer than 2 points; a 2-point polygon is not guarded: its perimeter is
the rounded doubled haversine distance between its endpoints, which can
be nonzero (see the counterexample). -/
theorem degenerate_polygon_zero_results (cosr sqrtA : ℚ → ℚ)
    (pts : List Pt) (ptsR : List (ℝ × ℝ)) (max_samples min_samples : ℕ)
    (h : pts.length < 3) (hR : ptsR.length < 2) :
    estimate_polygon_area_km2 cosr pts = 0 ∧
    calculate_polygon_area cosr pts = 0 ∧
    generate_grid_samples cosr sqrtA pts max_samples min_samples = [] ∧
    calculate_polygon_perimeter ptsR = 0 ∧
    ∀ p q : ℝ × ℝ, calculate_polygon_perimeter [p, q]
      = pyRound (2 * haversine_distance p.1 p.2 q.1 q.2) 3 := by
  refine ⟨?_, ?_, ?_, ?_, ?_⟩
  · rw [estimate_polygon_area_km2, if_pos h]
  · rw [calculate_polygon_area, if_pos h]
  · rw [generate_grid_samples, if_pos h]
  · rw [calculate_polygon_perimeter, if_pos hR]
  · intro p q
    have hlen : ¬ (([p, q] : List (ℝ × ℝ)).length < 2) := by simp
    rw [calculate_polygon_perimeter, if_neg hlen]
    have hzip : (([p, q] : List (ℝ × ℝ)).zip (([p, q] : List (ℝ × ℝ)).rotate 1))
        = [(p, q), (q, p)] := rfl
    rw [hzip]
    simp only [List.map_cons, List.map_nil, List.sum_cons, List.sum_nil]
    rw [haversine_distance_symm p.1 p.2 q.1 q.2]
    congr 1
    ring

/-- Witness for the amended C2 at concrete one-point and two-point inputs. -/
theorem degenerate_polygon_zero_results_witness :
    ([((0:ℚ),(0:ℚ))] : List Pt).length < 3 ∧
    ([((0:ℝ),(0:ℝ))] : List (ℝ × ℝ)).length < 2 ∧
    (estimate_polygon_area_km2 (fun _ => 1) [((0:ℚ),(0:ℚ))] = 0 ∧
     calculate_polygon_area (fun _ => 1) [((0:ℚ),(0:ℚ))] = 0 ∧
     generate_grid_samples (fun _ => 1) (fun _ => 0) [((0:ℚ),(0:ℚ))] 50 5 = [] ∧
     calculate_polygon_perimeter [((0:ℝ),(0:ℝ))] = 0 ∧
     calculate_polygon_perimeter [((0:ℝ),(0:ℝ)), ((1:ℝ),(1:ℝ))]
       = pyRound (2 * haversine_distance 0 0 1 1) 3) := by
  have h := degenerate_polygon_zero_results (fun _ => 1) (fun _ => 0)
    [((0:ℚ),(0:ℚ))] [((0:ℝ),(0:ℝ))] 50 5 (by decide) (by decide)
  exact ⟨by decide, by decide, h.1, h.2.1, h.2.2.1, h.2.2.2.1,
    h.2.2.2.2 ((0:ℝ),(0:ℝ)) ((1:ℝ),(1:ℝ))⟩

theorem haversine_distance_poles (lat1 lat2 : ℝ) (hsin : Real.sin ((lat2 - lat1) * Real.pi / 360) ^ 2 = 1) :
    haversine_distance lat1 0 lat2 0 = 6371 * Real.pi := by
  unfold haversine_distance
  have h0 : (0:ℝ) * Real.pi / 180 = 0 := by ring
  have harg : (lat2 * Real.pi / 180 - lat1 * Real.pi / 180) / 2
      = (lat2 - lat1) * Real.pi / 360 := by ring
  rw [h0]
  simp only [harg, hsin, Real.sin_zero]
  norm_num [Real.sqrt_one, Real.arcsin_one]
  ring

/-- Counterexample to C2 as stated: the 2-point (hence degenerate)
polygon from the south pole to the north pole has perimeter
round(2 * 6371 * pi, 3), which is positive, not 0: the source guards
the perimeter only for fewer than 2 points, not fewer than 3. -/
theorem perimeter_two_points_counterexample :
    ([((-90:ℝ), (0:ℝ)), (90, 0)] : List (ℝ × ℝ)).length < 3 ∧
    calculate_polygon_perimeter [((-90:ℝ), (0:ℝ)), (90, 0)] ≠ 0 := by
  constructor
  · decide
  · have hlen : ¬ ([((-90:ℝ), (0:ℝ)), (90, 0)] : List (ℝ × ℝ)).length < 2 := by decide
    rw [calculate_polygon_perimeter, if_neg hlen]
    have hrot : (([((-90:ℝ), (0:ℝ)), (90, 0)] : List (ℝ × ℝ)).rotate 1)
        = [((90:ℝ), (0:ℝ)), (-90, 0)] := rfl
    rw [hrot]
    have h1 : haversine_distance (-90) 0 90 0 = 6371 * Real.pi := by
      apply haversine_distance_poles
      have : ((90:ℝ) - -90) * Real.pi / 360 = Real.pi / 2 := by ring
      rw [this, Real.sin_pi_div_two]
      norm_num
    have h2 : haversine_distance 90 0 (-90) 0 = 6371 * Real.pi := by
      apply haversine_distance_poles
      have : ((-90:ℝ) - 90) * Real.pi / 360 = -(Real.pi / 2) := by ring
      rw [this, Real.sin_neg, Real.sin_pi_div_two]
      norm_num
    simp only [List.zip, List.zipWith, List.map, List.sum_cons, List.sum_nil, h1, h2]
    have hsum : 6371 * Real.pi + (6371 * Real.pi + 0) = 12742 * Real.pi := by ring
    rw [hsum]
    -- round(12742 * pi, 3) is at least floor(12742000 * pi) / 1000 >= 38226
    have hpi := Real.pi_gt_three
    have harg : (12742 : ℝ) * Real.pi * 10 ^ 3 = 12742000 * Real.pi := by ring
    have hfl : (38226000 : ℤ) ≤ ⌊(12742 : ℝ) * Real.pi * 10 ^ 3⌋ := by
      rw [harg]
      apply Int.le_floor.mpr
      push_cast
      nlinarith
    have hrhe : (1 : ℤ) ≤ rhe ((12742 : ℝ) * Real.pi * 10 ^ 3) := by
      rcases rhe_cases ((12742 : ℝ) * Real.pi * 10 ^ 3) with hc | hc <;> rw [hc] <;> omega
    have : (0:ℝ) < pyRound ((12742 : ℝ) * Real.pi) 3 := by
      unfold pyRound
      apply div_pos _ (by positivity)
      exact_mod_cast lt_of_lt_of_le zero_lt_one (by exact_mod_cast hrhe)
    exact ne_of_gt this

/-! ## polygon_utils.aggregate_predictions

Python builds two insertion-ordered dicts keyed by land class (counts
and confidence lists); both are embedded as one association list in
insertion order.  The nested per-class prediction dict of the input is
not read by the function and is omitted from the embedding. -/

/-- One prediction sample: pred.get("land_class", ...) and
pred.get("confidence", ...). -/
structure Pred where
  land_class : String
  confidence : ℚ
deriving DecidableEq

/-- Processing one prediction: create the class entry on first sight
(count 0, empty list), then increment the count and append the
confidence. -/
def addPred (acc : List (String × ℕ × List ℚ)) (p : Pred) :
    List (String × ℕ × List ℚ) :=
  if acc.any (fun e => e.1 = p.land_class) then
    acc.map (fun e =>
      if e.1 = p.land_class then (e.1, e.2.1 + 1, e.2.2 ++ [p.confidence]) else e)
  else acc ++ [(p.land_class, 1, [p.confidence])]

/-- The class_counts / class_confidences dicts after the counting loop,
in insertion order. -/
def classStats (predictions : List Pred) : List (String × ℕ × List ℚ) :=
  predictions.foldl addPred []

/-- One value of the class_distribution mapping. -/
structure DistEntry where
  cls : String
  percentage : ℚ
  count : ℕ
  avg_confidence : ℚ
deriving DecidableEq

/-- Aggregated output.  The constant "area_coverage" marker of the
nonempty case is not modelled. -/
structure AggOut where
  dominant_class : String
  confidence : ℚ
  class_distribution : List DistEntry
  sample_count : ℕ

/-- Fold step of Python max(class_counts.items(), key=count): keep the
current best unless the challenger is strictly greater, so the first
maximum wins. -/
def maxByCountStep (best e : String × ℕ × List ℚ) : String × ℕ × List ℚ :=
  if best.2.1 < e.2.1 then e else best

/-- One step of the class_distribution dict comprehension:
percentage = round(count/total*100, 2),
avg_confidence = round(mean of confidences, 3). -/
def distMk (total : ℚ) (e : String × ℕ × List ℚ) : DistEntry :=
  DistEntry.mk e.1 (pyRound ((e.2.1 : ℚ) / total * 100) 2) e.2.1
    (pyRound (e.2.2.sum / (e.2.2.length : ℚ)) 3)

/-- Python max(class_counts.items(), key=count) over the insertion-ordered
entries ("Unknown" on the empty dict, which is unreachable for nonempty
input). -/
def dominantOf (stats : List (String × ℕ × List ℚ)) : String :=
  match stats with
  | [] => "Unknown"
  | e :: t => (t.foldl maxByCountStep e).1

/-- Embedding of polygon_utils.aggregate_predictions.  Python
sorted(..., reverse=True) is stable; mergeSort keeps the left element
on ties, matching it.  The lookup
class_distribution[dominant_class]["avg_confidence"] always finds its
key; a miss (impossible) is modelled as 0. -/
def aggregate_predictions (predictions : List Pred) : AggOut :=
  if predictions.isEmpty then ⟨"Unknown", 0, [], 0⟩
  else
    let stats := classStats predictions
    let total : ℚ := predictions.length
    let distSorted := (stats.map (distMk total)).mergeSort
      (fun a b => decide (b.percentage ≤ a.percentage))
    let dominant_class := dominantOf stats
    ⟨dominant_class,
     ((distSorted.find? (fun d => d.cls = dominant_class)).map
       (fun d => d.avg_confidence)).getD 0,
     distSorted, predictions.length⟩

/-- Number of predictions carrying class c (specification-side). -/
def countOf (predictions : List Pred) (c : String) : ℕ :=
  (predictions.filter (fun p => p.land_class = c)).length

/-- Confidences of the predictions carrying class c, in order
(specification-side). -/
def confsOf (predictions : List Pred) (c : String) : List ℚ :=
  (predictions.filter (fun p => p.land_class = c)).map Pred.confidence

/-- Index of the first prediction carrying class c
(specification-side). -/
def firstIdx (predictions : List Pred) (c : String) : ℕ :=
  predictions.findIdx (fun p => p.land_class = c)

/-- Invariant tying the association list built by the counting loop to
the processed prefix of the input. -/
def StatsInv (preds : List Pred) (acc : List (String × ℕ × List ℚ)) : Prop :=
  (∀ e ∈ acc, e.2.1 = countOf preds e.1 ∧ e.2.2 = confsOf preds e.1) ∧
  (∀ p ∈ preds, ∃ e ∈ acc, e.1 = p.land_class) ∧
  (∀ e ∈ acc, ∃ p ∈ preds, p.land_class = e.1) ∧
  (acc.map (fun e => e.1)).Pairwise (fun a b => firstIdx preds a < firstIdx preds b) ∧
  (acc.map (fun e => e.2.1)).sum = preds.length

theorem countOf_append_singleton (l : List Pred) (p : Pred) (c : String) :
    countOf (l ++ [p]) c = countOf l c + if p.land_class = c then 1 else 0 := by
  unfold countOf
  rw [List.filter_append, List.length_append]
  congr 1
  by_cases hc : p.land_class = c <;> simp [hc]

theorem confsOf_append_singleton (l : List Pred) (p : Pred) (c : String) :
    confsOf (l ++ [p]) c
      = confsOf l c ++ (if p.land_class = c then [p.confidence] else []) := by
  unfold confsOf
  rw [List.filter_append, List.map_append]
  congr 1
  by_cases hc : p.land_class = c <;> simp [hc]

theorem countOf_eq_zero (l : List Pred) (c : String)
    (h : ∀ q ∈ l, q.land_class ≠ c) : countOf l c = 0 := by
  unfold countOf
  rw [List.length_eq_zero, List.filter_eq_nil]
  intro q hq
  simpa using h q hq

theorem confsOf_eq_nil (l : List Pred) (c : String)
    (h : ∀ q ∈ l, q.land_class ≠ c) : confsOf l c = [] := by
  unfold confsOf
  rw [List.map_eq_nil, List.filter_eq_nil]
  intro q hq
  simpa using h q hq

theorem firstIdx_lt_length (l : List Pred) (c : String)
    (h : ∃ q ∈ l, q.land_class = c) : firstIdx l c < l.length := by
  unfold firstIdx
  apply List.findIdx_lt_length_of_exists
  obtain ⟨q, hq, hc⟩ := h
  exact ⟨q, hq, by simpa using hc⟩

theorem firstIdx_append_of_found (l : List Pred) (p : Pred) (c : String)
    (h : ∃ q ∈ l, q.land_class = c) :
    firstIdx (l ++ [p]) c = firstIdx l c := by
  have hlt := firstIdx_lt_length l c h
  unfold firstIdx at hlt ⊢
  rw [List.findIdx_append, if_pos hlt]

theorem firstIdx_append_not_found (l : List Pred) (p : Pred)
    (h : ∀ q ∈ l, q.land_class ≠ p.land_class) :
    firstIdx (l ++ [p]) p.land_class = l.length := by
  unfold firstIdx
  rw [List.findIdx_append]
  have hfl : l.findIdx (fun q => q.land_class = p.land_class) = l.length := by
    apply List.findIdx_eq_length_of_false
    intro q hq
    simpa using h q hq
  rw [hfl, if_neg (lt_irrefl _)]
  simp [List.findIdx_cons]

theorem sum_counts_update (p : Pred) :
    ∀ acc : List (String × ℕ × List ℚ),
      (acc.map (fun e => e.1)).Nodup →
      (∃ e0 ∈ acc, e0.1 = p.land_class) →
      ((acc.map (fun e =>
          if e.1 = p.land_class then (e.1, e.2.1 + 1, e.2.2 ++ [p.confidence]) else e)).map
            (fun e => e.2.1)).sum = (acc.map (fun e => e.2.1)).sum + 1 := by
  intro acc
  induction acc with
  | nil =>
      intro _ hex
      simp at hex
  | cons e t ih =>
      intro hnd hex
      simp only [List.map_cons, List.nodup_cons] at hnd
      by_cases hc : e.1 = p.land_class
      · simp only [List.map_cons, List.sum_cons, if_pos hc]
        have hnotin : ∀ x ∈ t, ¬ (x.1 = p.land_class) := by
          intro x hx hxc
          apply hnd.1
          rw [hc, ← hxc]
          exact List.mem_map_of_mem _ hx
        have htid : (t.map (fun x =>
            if x.1 = p.land_class then (x.1, x.2.1 + 1, x.2.2 ++ [p.confidence]) else x)) = t := by
          conv_rhs => rw [← List.map_id t]
          apply List.map_congr_left
          intro x hx
          rw [if_neg (hnotin x hx)]
          rfl
        rw [htid]
        omega
      · simp only [List.map_cons, List.sum_cons, if_neg hc]
        have hex2 : ∃ e0 ∈ t, e0.1 = p.land_class := by
          rcases hex with ⟨e0, he0, he0c⟩
          rcases List.mem_cons.mp he0 with rfl | he0t
          · exact absurd he0c hc
          · exact ⟨e0, he0t, he0c⟩
        rw [ih hnd.2 hex2]
        omega

theorem statsInv_step (processed : List Pred) (acc : List (String × ℕ × List ℚ))
    (p : Pred) (h : StatsInv processed acc) :
    StatsInv (processed ++ [p]) (addPred acc p) := by
  obtain ⟨hcnt, hexists, hocc, hpair, hsum⟩ := h
  have hfi_keep : ∀ a ∈ acc.map (fun e => e.1),
      firstIdx (processed ++ [p]) a = firstIdx processed a := by
    intro a ha
    simp only [List.mem_map] at ha
    obtain ⟨e, he, rfl⟩ := ha
    obtain ⟨q, hq, hqc⟩ := hocc e he
    exact firstIdx_append_of_found processed p e.1 ⟨q, hq, hqc⟩
  unfold addPred
  by_cases hany : acc.any (fun e => e.1 = p.land_class)
  · rw [if_pos hany]
    simp only [List.any_eq_true, decide_eq_true_eq] at hany
    obtain ⟨e0, he0, he0c⟩ := hany
    have hkeymap : (acc.map (fun e =>
        if e.1 = p.land_class then (e.1, e.2.1 + 1, e.2.2 ++ [p.confidence]) else e)).map
          (fun e => e.1) = acc.map (fun e => e.1) := by
      rw [List.map_map]
      apply List.map_congr_left
      intro e _
      by_cases hc : e.1 = p.land_class <;> simp [hc]
    refine ⟨?_, ?_, ?_, ?_, ?_⟩
    · intro e' he'
      simp only [List.mem_map] at he'
      obtain ⟨e, he, rfl⟩ := he'
      obtain ⟨hc1, hc2⟩ := hcnt e he
      by_cases hc : e.1 = p.land_class
      · simp only [if_pos hc]
        constructor
        · rw [countOf_append_singleton, if_pos (by rw [hc]), hc1]
        · rw [confsOf_append_singleton, if_pos (by rw [hc]), hc2]
      · simp only [if_neg hc]
        constructor
        · rw [countOf_append_singleton,
            if_neg (by intro hcc; exact hc hcc.symm), hc1]
          omega
        · rw [confsOf_append_singleton,
            if_neg (by intro hcc; exact hc hcc.symm), List.append_nil]
          exact hc2
    · intro q hq
      rcases List.mem_append.mp hq with hq1 | hq1
      · obtain ⟨e, he, hec⟩ := hexists q hq1
        refine ⟨if e.1 = p.land_class then (e.1, e.2.1 + 1, e.2.2 ++ [p.confidence]) else e,
          List.mem_map_of_mem _ he, ?_⟩
        by_cases hc : e.1 = p.land_class
        · rw [if_pos hc]
          exact hec
        · rw [if_neg hc]
          exact hec
      · have : q = p := by simpa using hq1
        subst this
        refine ⟨(e0.1, e0.2.1 + 1, e0.2.2 ++ [q.confidence]), ?_, by simp [he0c]⟩
        have heq : (if e0.1 = q.land_class
              then (e0.1, e0.2.1 + 1, e0.2.2 ++ [q.confidence]) else e0)
            = (e0.1, e0.2.1 + 1, e0.2.2 ++ [q.confidence]) := by
          rw [if_pos he0c]
        rw [← heq]
        exact List.mem_map_of_mem _ he0
    · intro e' he'
      simp only [List.mem_map] at he'
      obtain ⟨e, he, rfl⟩ := he'
      obtain ⟨q, hq, hqc⟩ := hocc e he
      refine ⟨q, List.mem_append_left _ hq, ?_⟩
      by_cases hc : e.1 = p.land_class <;> simp [hc, hqc]
    · rw [hkeymap]
      apply hpair.imp_of_mem
      intro a b ha hb hab
      rw [hfi_keep a ha, hfi_keep b hb]
      exact hab
    · have hnd : (acc.map (fun e => e.1)).Nodup := by
        refine hpair.imp ?_
        intro a b hab hEq
        rw [hEq] at hab
        exact lt_irrefl _ hab
      rw [sum_counts_update p acc hnd ⟨e0, he0, he0c⟩, hsum, List.length_append]
      simp
  · rw [if_neg hany]
    simp only [List.any_eq_true, decide_eq_true_eq, not_exists, not_and] at hany
    have hnotproc : ∀ q ∈ processed, q.land_class ≠ p.land_class := by
      intro q hq hqc
      obtain ⟨e, he, hec⟩ := hexists q hq
      exact hany e he (by rw [hec, hqc])
    refine ⟨?_, ?_, ?_, ?_, ?_⟩
    · intro e' he'
      rcases List.mem_append.mp he' with he1 | he1
      · obtain ⟨hc1, hc2⟩ := hcnt e' he1
        constructor
        · rw [countOf_append_singleton,
            if_neg (fun hcc => hany e' he1 hcc.symm), hc1]
          omega
        · rw [confsOf_append_singleton,
            if_neg (fun hcc => hany e' he1 hcc.symm), List.append_nil]
          exact hc2
      · have he2 : e' = (p.land_class, 1, [p.confidence]) := by simpa using he1
        subst he2
        constructor
        · rw [countOf_append_singleton, if_pos rfl,
            countOf_eq_zero processed p.land_class hnotproc]
        · rw [confsOf_append_singleton, if_pos rfl,
            confsOf_eq_nil processed p.land_class hnotproc]
          simp
    · intro q hq
      rcases List.mem_append.mp hq with hq1 | hq1
      · obtain ⟨e, he, hec⟩ := hexists q hq1
        exact ⟨e, List.mem_append_left _ he, hec⟩
      · have : q = p := by simpa using hq1
        subst this
        exact ⟨(q.land_class, 1, [q.confidence]),
          List.mem_append_right _ (by simp), rfl⟩
    · intro e' he'
      rcases List.mem_append.mp he' with he1 | he1
      · obtain ⟨q, hq, hqc⟩ := hocc e' he1
        exact ⟨q, List.mem_append_left _ hq, hqc⟩
      · have he2 : e' = (p.land_class, 1, [p.confidence]) := by simpa using he1
        subst he2
        exact ⟨p, List.mem_append_right _ (by simp), rfl⟩
    · rw [List.map_append]
      rw [List.pairwise_append]
      refine ⟨?_, by simp, ?_⟩
      · apply hpair.imp_of_mem
        intro a b ha hb hab
        rw [hfi_keep a ha, hfi_keep b hb]
        exact hab
      · intro a ha b hb
        have hb2 : b = p.land_class := by simpa using hb
        subst hb2
        rw [hfi_keep a ha, firstIdx_append_not_found processed p hnotproc]
        simp only [List.mem_map] at ha
        obtain ⟨e, he, rfl⟩ := ha
        obtain ⟨q, hq, hqc⟩ := hocc e he
        exact firstIdx_lt_length processed e.1 ⟨q, hq, hqc⟩
    · rw [List.map_append, List.sum_append, hsum, List.length_append]
      simp

theorem statsInv_fold (rest : List Pred) :
    ∀ (processed : List Pred) (acc : List (String × ℕ × List ℚ)),
      StatsInv processed acc →
      StatsInv (processed ++ rest) (rest.foldl addPred acc) := by
  induction rest with
  | nil =>
      intro processed acc h
      simpa using h
  | cons p t ih =>
      intro processed acc h
      have h3 := ih (processed ++ [p]) (addPred acc p) (statsInv_step processed acc p h)
      simpa [List.append_assoc] using h3

theorem statsInv_classStats (preds : List Pred) : StatsInv preds (classStats preds) := by
  have h0 : StatsInv [] [] := by
    refine ⟨?_, ?_, ?_, ?_, ?_⟩ <;> simp
  have h := statsInv_fold preds [] [] h0
  simpa [classStats] using h

/-- The fold of maxByCountStep picks the first entry with the maximal
count: given that the start entry precedes the list (w.r.t. any strict
measure f) and the list is f-increasing, the result has maximal count
and the least f among entries tying with it. -/
theorem foldl_maxByCount (f : String × ℕ × List ℚ → ℕ) :
    ∀ (l : List (String × ℕ × List ℚ)) (b : String × ℕ × List ℚ),
      (∀ x ∈ l, f b < f x) →
      l.Pairwise (fun a c => f a < f c) →
      ((l.foldl maxByCountStep b = b ∨ l.foldl maxByCountStep b ∈ l) ∧
       b.2.1 ≤ (l.foldl maxByCountStep b).2.1 ∧
       (∀ x ∈ l, x.2.1 ≤ (l.foldl maxByCountStep b).2.1) ∧
       (b.2.1 = (l.foldl maxByCountStep b).2.1 → l.foldl maxByCountStep b = b) ∧
       (∀ x ∈ l, x.2.1 = (l.foldl maxByCountStep b).2.1 →
         f (l.foldl maxByCountStep b) ≤ f x)) := by
  intro l
  induction l with
  | nil =>
      intro b _ _
      exact ⟨Or.inl rfl, le_refl _, by simp, fun _ => rfl, by simp⟩
  | cons x t ih =>
      intro b hb hpair
      rw [List.pairwise_cons] at hpair
      obtain ⟨hx, ht⟩ := hpair
      rw [List.foldl_cons]
      by_cases hlt : b.2.1 < x.2.1
      · have hstep : maxByCountStep b x = x := by
          unfold maxByCountStep
          rw [if_pos hlt]
        rw [hstep]
        obtain ⟨hro, hble, hall, htb, htie⟩ := ih x hx ht
        refine ⟨?_, ?_, ?_, ?_, ?_⟩
        · rcases hro with h | h
          · exact Or.inr (by rw [h]; exact List.mem_cons_self x t)
          · exact Or.inr (List.mem_cons_of_mem x h)
        · exact le_trans (le_of_lt hlt) hble
        · intro z hz
          rcases List.mem_cons.mp hz with rfl | hz2
          · exact hble
          · exact hall z hz2
        · intro hbr
          have := lt_of_lt_of_le hlt hble
          omega
        · intro z hz hzr
          rcases List.mem_cons.mp hz with rfl | hz2
          · rw [htb hzr]
          · exact htie z hz2 hzr
      · have hstep : maxByCountStep b x = b := by
          unfold maxByCountStep
          rw [if_neg hlt]
        rw [hstep]
        have hxb : x.2.1 ≤ b.2.1 := Nat.le_of_not_lt hlt
        have hbt : ∀ y ∈ t, f b < f y := fun y hy => hb y (List.mem_cons_of_mem x hy)
        obtain ⟨hro, hble, hall, htb, htie⟩ := ih b hbt ht
        refine ⟨?_, ?_, ?_, ?_, ?_⟩
        · rcases hro with h | h
          · exact Or.inl h
          · exact Or.inr (List.mem_cons_of_mem x h)
        · exact hble
        · intro z hz
          rcases List.mem_cons.mp hz with rfl | hz2
          · exact le_trans hxb hble
          · exact hall z hz2
        · exact htb
        · intro z hz hzr
          rcases List.mem_cons.mp hz with rfl | hz2
          · have hbr : b.2.1 = (t.foldl maxByCountStep b).2.1 := by omega
            rw [htb hbr]
            exact le_of_lt (hb z (List.mem_cons_self z t))
          · exact htie z hz2 hzr

theorem confsOf_length (preds : List Pred) (c : String) :
    (confsOf preds c).length = countOf preds c := by
  simp [confsOf, countOf]

theorem aggregate_nonempty_proj (preds : List Pred) (hne : preds ≠ []) :
    aggregate_predictions preds =
      ⟨dominantOf (classStats preds),
       (((((classStats preds).map (distMk (preds.length : ℚ))).mergeSort
           (fun a b => decide (b.percentage ≤ a.percentage))).find?
           (fun d => d.cls = dominantOf (classStats preds))).map
         (fun d => d.avg_confidence)).getD 0,
       ((classStats preds).map (distMk (preds.length : ℚ))).mergeSort
         (fun a b => decide (b.percentage ≤ a.percentage)),
       preds.length⟩ := by
  unfold aggregate_predictions
  rw [if_neg (by simp [hne])]

/-- C3: for every nonempty prediction list, the dominant class occurs
in the input, has the maximal occurrence count, ties are broken by
first occurrence, and the reported top-level confidence is the dominant
class's rounded average confidence (not a global average). -/
theorem aggregate_predictions_dominant (preds : List Pred) (hne : preds ≠ []) :
    (∃ p ∈ preds, p.land_class = (aggregate_predictions preds).dominant_class) ∧
    (∀ p ∈ preds,
      countOf preds p.land_class
        ≤ countOf preds (aggregate_predictions preds).dominant_class) ∧
    (∀ p ∈ preds,
      countOf preds p.land_class
          = countOf preds (aggregate_predictions preds).dominant_class →
      firstIdx preds (aggregate_predictions preds).dominant_class
        ≤ firstIdx preds p.land_class) ∧
    (aggregate_predictions preds).confidence
      = pyRound ((confsOf preds (aggregate_predictions preds).dominant_class).sum
          / (countOf preds (aggregate_predictions preds).dominant_class : ℚ)) 3 := by
  obtain ⟨hcnt, hexists, hocc, hpair, hsum⟩ := statsInv_classStats preds
  obtain ⟨q0, hq0⟩ : ∃ q, q ∈ preds := by
    cases preds with
    | nil => exact absurd rfl hne
    | cons a t => exact ⟨a, List.mem_cons_self a t⟩
  obtain ⟨e0, he0, he0c⟩ := hexists q0 hq0
  rw [aggregate_nonempty_proj preds hne]
  cases hstats : classStats preds with
  | nil =>
      rw [hstats] at he0
      simp at he0
  | cons s0 srest =>
      rw [hstats] at hcnt hexists hocc hpair
      have hpairE : (s0 :: srest).Pairwise
          (fun a b => firstIdx preds a.1 < firstIdx preds b.1) := by
        rw [List.pairwise_map] at hpair
        exact hpair
      obtain ⟨hx0, ht⟩ := List.pairwise_cons.mp hpairE
      obtain ⟨hro, hble, hall, htb, htie⟩ :=
        foldl_maxByCount (fun e => firstIdx preds e.1) srest s0 hx0 ht
      set r := srest.foldl maxByCountStep s0 with hrdef
      have hdom : dominantOf (s0 :: srest) = r.1 := rfl
      have hrmem : r ∈ s0 :: srest := by
        rcases hro with h | h
        · rw [h]; exact List.mem_cons_self s0 srest
        · exact List.mem_cons_of_mem s0 h
      have hrcnt := hcnt r hrmem
      have hcount_le : ∀ e ∈ s0 :: srest, e.2.1 ≤ r.2.1 := by
        intro e he
        rcases List.mem_cons.mp he with rfl | he2
        · exact hble
        · exact hall e he2
      have htieAll : ∀ e ∈ s0 :: srest, e.2.1 = r.2.1 →
          firstIdx preds r.1 ≤ firstIdx preds e.1 := by
        intro e he hec
        rcases List.mem_cons.mp he with rfl | he2
        · rw [htb hec]
        · exact htie e he2 hec
      simp only [hdom]
      refine ⟨?_, ?_, ?_, ?_⟩
      · obtain ⟨q, hq, hqc⟩ := hocc r hrmem
        exact ⟨q, hq, hqc⟩
      · intro p hp
        obtain ⟨e, he, hec⟩ := hexists p hp
        have h1 : countOf preds p.land_class = e.2.1 := by
          rw [(hcnt e he).1, hec]
        have h2 : countOf preds r.1 = r.2.1 := (hcnt r hrmem).1.symm
        rw [h1, h2]
        exact hcount_le e he
      · intro p hp heq
        obtain ⟨e, he, hec⟩ := hexists p hp
        have h1 : countOf preds p.land_class = e.2.1 := by
          rw [(hcnt e he).1, hec]
        have h2 : countOf preds r.1 = r.2.1 := (hcnt r hrmem).1.symm
        rw [h1, h2] at heq
        have := htieAll e he heq
        rw [← hec]
        exact this
      · -- confidence: the find? lookup returns a distribution entry whose
        -- class is r.1, and all such entries carry the rounded average of
        -- the dominant class's confidences.
        have hperm := List.mergeSort_perm
          ((s0 :: srest).map (distMk (preds.length : ℚ)))
          (fun a b => decide (b.percentage ≤ a.percentage))
        have hdr_mem : distMk (preds.length : ℚ) r ∈
            ((s0 :: srest).map (distMk (preds.length : ℚ))).mergeSort
              (fun a b => decide (b.percentage ≤ a.percentage)) := by
          rw [hperm.mem_iff]
          exact List.mem_map_of_mem _ hrmem
        have hfind : (((s0 :: srest).map (distMk (preds.length : ℚ))).mergeSort
            (fun a b => decide (b.percentage ≤ a.percentage))).find?
              (fun d => d.cls = r.1) |>.isSome := by
          rw [List.find?_isSome]
          exact ⟨distMk (preds.length : ℚ) r, hdr_mem, by simp [distMk]⟩
        obtain ⟨d, hd⟩ := Option.isSome_iff_exists.mp hfind
        have hd_mem : d ∈ ((s0 :: srest).map (distMk (preds.length : ℚ))).mergeSort
            (fun a b => decide (b.percentage ≤ a.percentage)) :=
          List.mem_of_find?_eq_some hd
        have hd_cls : d.cls = r.1 := by
          have := List.find?_some hd
          simpa using this
        rw [hperm.mem_iff] at hd_mem
        simp only [List.mem_map] at hd_mem
        obtain ⟨e, he, hde⟩ := hd_mem
        have he_cls : e.1 = r.1 := by
          rw [← hd_cls, ← hde]
          rfl
        have he_cnt := hcnt e he
        show (((((s0 :: srest).map (distMk (preds.length : ℚ))).mergeSort
            (fun a b => decide (b.percentage ≤ a.percentage))).find?
            (fun d => d.cls = r.1)).map (fun d => d.avg_confidence)).getD 0
          = pyRound ((confsOf preds r.1).sum / (countOf preds r.1 : ℚ)) 3
        rw [hd]
        show d.avg_confidence
          = pyRound ((confsOf preds r.1).sum / (countOf preds r.1 : ℚ)) 3
        rw [← hde]
        show pyRound (e.2.2.sum / (e.2.2.length : ℚ)) 3
          = pyRound ((confsOf preds r.1).sum / (countOf preds r.1 : ℚ)) 3
        rw [he_cnt.2, he_cls, confsOf_length]

/-- The five-prediction scenario of the specification: classes
A, A, A, B, C with confidences 0.9, 0.8, 0.85, 0.7, 0.6. -/
def specScenario : List Pred :=
  [⟨"A", 9/10⟩, ⟨"A", 8/10⟩, ⟨"A", 85/100⟩, ⟨"B", 7/10⟩, ⟨"C", 6/10⟩]

/-- Witness for C3 at the spec scenario, together with the concrete
values the claim names for it: dominant class "A", confidence 0.85 (the
class average of A, not the global average 0.77), percentage 60 for
class "A". -/
theorem aggregate_predictions_dominant_witness :
    (specScenario ≠ []) ∧
    ((∃ p ∈ specScenario,
        p.land_class = (aggregate_predictions specScenario).dominant_class) ∧
     (∀ p ∈ specScenario,
        countOf specScenario p.land_class
          ≤ countOf specScenario (aggregate_predictions specScenario).dominant_class) ∧
     (∀ p ∈ specScenario,
        countOf specScenario p.land_class
            = countOf specScenario (aggregate_predictions specScenario).dominant_class →
        firstIdx specScenario (aggregate_predictions specScenario).dominant_class
          ≤ firstIdx specScenario p.land_class) ∧
     (aggregate_predictions specScenario).confidence
       = pyRound ((confsOf specScenario
             (aggregate_predictions specScenario).dominant_class).sum
           / (countOf specScenario
               (aggregate_predictions specScenario).dominant_class : ℚ)) 3) ∧
    (aggregate_predictions specScenario).dominant_class = "A" ∧
    (aggregate_predictions specScenario).confidence = 85/100 ∧
    (∃ d ∈ (aggregate_predictions specScenario).class_distribution,
       d.cls = "A" ∧ d.percentage = 60) := by
  have hne : specScenario ≠ [] := by simp [specScenario]
  have hmain := aggregate_predictions_dominant specScenario hne
  have hdom : (aggregate_predictions specScenario).dominant_class = "A" := by
    rw [aggregate_nonempty_proj specScenario hne]
    rfl
  refine ⟨hne, hmain, hdom, ?_, ?_⟩
  · have hconf := hmain.2.2.2
    rw [hdom] at hconf
    rw [hconf]
    have h1 : confsOf specScenario "A" = [9/10, 8/10, 85/100] := by
      simp [confsOf, specScenario]
    have h2 : countOf specScenario "A" = 3 := by
      simp [countOf, specScenario]
    rw [h1, h2]
    norm_num [pyRound, rhe]
  · rw [aggregate_nonempty_proj specScenario hne]
    refine ⟨distMk ((specScenario.length : ℕ) : ℚ) ("A", 3, [9/10, 8/10, 85/100]), ?_, rfl, ?_⟩
    · show _ ∈ ((classStats specScenario).map (distMk ((specScenario.length : ℕ) : ℚ))).mergeSort _
      rw [(List.mergeSort_perm _ _).mem_iff]
      apply List.mem_map_of_mem
      show _ ∈ classStats specScenario
      rw [show classStats specScenario
          = [("A", 3, [9/10, 8/10, 85/100]), ("B", 1, [7/10]), ("C", 1, [6/10])] from rfl]
      exact List.mem_cons_self _ _
    · show pyRound ((3 : ℚ) / ((specScenario.length : ℕ) : ℚ) * 100) 2 = 60
      rw [show ((specScenario.length : ℕ) : ℚ) = 5 by simp [specScenario]]
      norm_num [pyRound, rhe]


theorem abs_sum_pyRound2_sub (xs : List ℚ) :
    |(xs.map (fun x => pyRound x 2)).sum - xs.sum| ≤ (xs.length : ℚ) / 200 := by
  induction xs with
  | nil => simp
  | cons x t ih =>
      simp only [List.map_cons, List.sum_cons, List.length_cons]
      have hx := abs_pyRound_sub_le x 2
      have htri : |pyRound x 2 + (t.map (fun x => pyRound x 2)).sum - (x + t.sum)|
          ≤ |pyRound x 2 - x| + |(t.map (fun x => pyRound x 2)).sum - t.sum| := by
        have : pyRound x 2 + (t.map (fun x => pyRound x 2)).sum - (x + t.sum)
            = (pyRound x 2 - x) + ((t.map (fun x => pyRound x 2)).sum - t.sum) := by ring
        rw [this]
        exact abs_add _ _
      have h200 : (1 : ℚ) / (2 * 10 ^ 2) = 1 / 200 := by norm_num
      rw [h200] at hx
      push_cast
      calc |pyRound x 2 + (t.map (fun x => pyRound x 2)).sum - (x + t.sum)|
          ≤ |pyRound x 2 - x| + |(t.map (fun x => pyRound x 2)).sum - t.sum| := htri
        _ ≤ 1 / 200 + (t.length : ℚ) / 200 := add_le_add hx ih
        _ = ((t.length : ℚ) + 1) / 200 := by ring

theorem sum_count_div (l : List (String × ℕ × List ℚ)) (n : ℚ) :
    (l.map (fun e => (e.2.1 : ℚ) / n * 100)).sum
      = (((l.map (fun e => e.2.1)).sum : ℕ) : ℚ) / n * 100 := by
  induction l with
  | nil => simp
  | cons e t ih =>
      simp only [List.map_cons, List.sum_cons]
      rw [ih]
      push_cast
      ring

theorem aggregate_distribution_facts (preds : List Pred) (hne : preds ≠ []) :
    ((aggregate_predictions preds).class_distribution.map (fun d => d.percentage)).sum
      = ((classStats preds).map
          (fun e => pyRound ((e.2.1 : ℚ) / (preds.length : ℚ) * 100) 2)).sum ∧
    (aggregate_predictions preds).class_distribution.length = (classStats preds).length := by
  rw [aggregate_nonempty_proj preds hne]
  constructor
  · have hperm : List.Perm
        (((classStats preds).map (distMk (preds.length : ℚ))).mergeSort
          (fun a b => decide (b.percentage ≤ a.percentage)))
        ((classStats preds).map (distMk (preds.length : ℚ))) :=
      List.mergeSort_perm _ _
    rw [(hperm.map (fun d => d.percentage)).sum_eq]
    rw [List.map_map]
    rfl
  · simp

/-- C5 (amended): the per-class percentages of the distribution sum to
100 up to one half-cent of rounding error per distinct class, hence
within the claimed tolerance 0.1 whenever at most 20 distinct classes
occur.  With more distinct classes the claimed bound 0.1 can fail (see
the counterexample). -/
theorem aggregate_distribution_sum_bound (preds : List Pred) (hne : preds ≠ []) :
    |((aggregate_predictions preds).class_distribution.map (fun d => d.percentage)).sum - 100|
      ≤ ((aggregate_predictions preds).class_distribution.length : ℚ) / 200 ∧
    ((aggregate_predictions preds).class_distribution.length ≤ 20 →
      |((aggregate_predictions preds).class_distribution.map (fun d => d.percentage)).sum - 100|
        ≤ 1/10) := by
  obtain ⟨hsum_eq, hlen_eq⟩ := aggregate_distribution_facts preds hne
  obtain ⟨hcnt, hexists, hocc, hpair, hsum⟩ := statsInv_classStats preds
  have hn0 : ((preds.length : ℕ) : ℚ) ≠ 0 := by
    have : 0 < preds.length := List.length_pos.mpr hne
    exact_mod_cast Nat.pos_iff_ne_zero.mp this
  have hexact : ((classStats preds).map
      (fun e => (e.2.1 : ℚ) / (preds.length : ℚ) * 100)).sum = 100 := by
    rw [sum_count_div, hsum, div_self hn0]
    norm_num
  have hmapmap : ((classStats preds).map
      (fun e => pyRound ((e.2.1 : ℚ) / (preds.length : ℚ) * 100) 2)).sum
      = (((classStats preds).map
          (fun e => (e.2.1 : ℚ) / (preds.length : ℚ) * 100)).map
            (fun x => pyRound x 2)).sum := by
    rw [List.map_map]
    rfl
  have hbound := abs_sum_pyRound2_sub
    ((classStats preds).map (fun e => (e.2.1 : ℚ) / (preds.length : ℚ) * 100))
  rw [hexact, List.length_map] at hbound
  rw [hsum_eq, hmapmap, hlen_eq]
  refine ⟨hbound, ?_⟩
  intro hk
  refine le_trans hbound ?_
  rw [div_le_div_iff (by norm_num) (by norm_num)]
  have : ((classStats preds).length : ℚ) ≤ 20 := by exact_mod_cast hk
  linarith

/-- Witness for the amended C5 at a three-prediction input. -/
theorem aggregate_distribution_sum_bound_witness :
    (([⟨"A", 1⟩, ⟨"A", 1⟩, ⟨"B", 1⟩] : List Pred) ≠ []) ∧
    (|((aggregate_predictions [⟨"A", 1⟩, ⟨"A", 1⟩, ⟨"B", 1⟩]).class_distribution.map
          (fun d => d.percentage)).sum - 100|
        ≤ ((aggregate_predictions [⟨"A", 1⟩, ⟨"A", 1⟩, ⟨"B", 1⟩]).class_distribution.length : ℚ)
            / 200 ∧
     ((aggregate_predictions [⟨"A", 1⟩, ⟨"A", 1⟩, ⟨"B", 1⟩]).class_distribution.length ≤ 20 →
       |((aggregate_predictions [⟨"A", 1⟩, ⟨"A", 1⟩, ⟨"B", 1⟩]).class_distribution.map
            (fun d => d.percentage)).sum - 100| ≤ 1/10)) :=
  ⟨by simp, aggregate_distribution_sum_bound [⟨"A", 1⟩, ⟨"A", 1⟩, ⟨"B", 1⟩] (by simp)⟩

/-- Thirty-one predictions with thirty-one distinct classes. -/
def preds31 : List Pred :=
  [⟨"a", 1⟩, ⟨"b", 1⟩, ⟨"c", 1⟩, ⟨"d", 1⟩, ⟨"e", 1⟩, ⟨"f", 1⟩, ⟨"g", 1⟩, ⟨"h", 1⟩, ⟨"i", 1⟩, ⟨"j", 1⟩, ⟨"k", 1⟩, ⟨"l", 1⟩, ⟨"m", 1⟩, ⟨"n", 1⟩, ⟨"o", 1⟩, ⟨"p", 1⟩, ⟨"q", 1⟩, ⟨"r", 1⟩, ⟨"s", 1⟩, ⟨"t", 1⟩, ⟨"u", 1⟩, ⟨"v", 1⟩, ⟨"w", 1⟩, ⟨"x", 1⟩, ⟨"y", 1⟩, ⟨"z", 1⟩, ⟨"A", 1⟩, ⟨"B", 1⟩, ⟨"C", 1⟩, ⟨"D", 1⟩, ⟨"E", 1⟩]

set_option maxRecDepth 4000 in
/-- Counterexample to C5 as stated: with 31 distinct classes each
percentage is round(100/31, 2) = 3.23, and the percentages sum to
100.13, missing 100 by 0.13 > 0.1. -/
theorem aggregate_distribution_sum_counterexample :
    ¬ (|((aggregate_predictions preds31).class_distribution.map
          (fun d => d.percentage)).sum - 100| ≤ 1/10) := by
  have hne : preds31 ≠ [] := by decide
  obtain ⟨hsum_eq, _⟩ := aggregate_distribution_facts preds31 hne
  have hlen : ((preds31.length : ℕ) : ℚ) = 31 := by
    norm_num [show preds31.length = 31 from rfl]
  rw [hsum_eq, show classStats preds31 = [("a", 1, [1]), ("b", 1, [1]), ("c", 1, [1]), ("d", 1, [1]), ("e", 1, [1]), ("f", 1, [1]), ("g", 1, [1]), ("h", 1, [1]), ("i", 1, [1]), ("j", 1, [1]), ("k", 1, [1]), ("l", 1, [1]), ("m", 1, [1]), ("n", 1, [1]), ("o", 1, [1]), ("p", 1, [1]), ("q", 1, [1]), ("r", 1, [1]), ("s", 1, [1]), ("t", 1, [1]), ("u", 1, [1]), ("v", 1, [1]), ("w", 1, [1]), ("x", 1, [1]), ("y", 1, [1]), ("z", 1, [1]), ("A", 1, [1]), ("B", 1, [1]), ("C", 1, [1]), ("D", 1, [1]), ("E", 1, [1])] from rfl, hlen]
  have h1 : pyRound (((1:ℕ) : ℚ) / 31 * 100) 2 = 323/100 := by
    norm_num [pyRound, rhe, Int.fract]
  simp only [List.map_cons, List.map_nil, List.sum_cons, List.sum_nil]
  rw [h1]
  norm_num
  rw [abs_of_nonneg (by norm_num : (0:ℚ) ≤ 13/100)]
  norm_num



/-! ## crop_suggestion_service.CropSuggestionService

The crop catalog and scoring pipeline; contexts (climate and soil) are
taken as inputs, matching the dictionaries _analyze_climate and
_analyze_soil_from_land_class produce.  Rationals embed the float
constants exactly (0.35 = 7/20 etc.). -/

/-- One CROP_DATABASE entry (the fields read by the scoring code). -/
structure Crop where
  name : String
  category : String
  avg_yield_kg_per_hectare : ℚ
  avg_market_price_inr_per_kg : ℚ
  investment_cost_inr_per_hectare : ℚ
  growing_months : ℕ
  optimal_temp_lo : ℚ
  optimal_temp_hi : ℚ
  min_rainfall_mm : ℚ
  max_rainfall_mm : ℚ
  soil_types : List String
  climate_zones : List String
  water_requirement : String
  labor_intensity : String
  risk_level : String
deriving DecidableEq

def saffron : Crop := ⟨"Saffron", "Spice", 8, 124500, 996000, 6, 15, 25, 150, 400,
  ["loamy", "sandy loam", "well-drained"], ["temperate", "subtropical"], "low", "high", "high"⟩

def vanilla : Crop := ⟨"Vanilla", "Spice", 400, 49800, 664000, 36, 21, 32, 2000, 3500,
  ["rich organic", "loamy", "well-drained"], ["tropical"], "high", "very high", "high"⟩

def cherry_tomatoes : Crop := ⟨"Cherry Tomatoes (Premium)", "Vegetable", 40000, 249, 415000, 4,
  18, 27, 400, 800, ["loamy", "sandy loam", "fertile"],
  ["temperate", "subtropical", "tropical"], "medium", "medium", "medium"⟩

def bell_peppers : Crop := ⟨"Bell Peppers (Capsicum)", "Vegetable", 35000, 207, 373500, 5,
  20, 30, 500, 900, ["loamy", "well-drained"],
  ["temperate", "subtropical", "tropical"], "medium", "medium", "low"⟩

def broccoli : Crop := ⟨"Broccoli", "Vegetable", 20000, 166, 249000, 3, 15, 23, 400, 700,
  ["fertile", "loamy", "well-drained"], ["temperate"], "medium", "medium", "low"⟩

def wheat : Crop := ⟨"Wheat", "Grain", 3000, 24, 41500, 6, 12, 25, 300, 750,
  ["loamy", "clay loam", "fertile"], ["temperate", "subtropical"], "low", "low", "low"⟩

def rice : Crop := ⟨"Rice", "Grain", 4500, 37, 66400, 5, 20, 35, 1000, 2500,
  ["clay", "clay loam", "waterlogged"], ["tropical", "subtropical"], "very high", "medium", "low"⟩

def corn : Crop := ⟨"Corn (Maize)", "Grain", 5000, 20, 49800, 4, 18, 32, 500, 1000,
  ["loamy", "fertile", "well-drained"], ["temperate", "subtropical", "tropical"],
  "medium", "low", "low"⟩

def sunflower : Crop := ⟨"Sunflower", "Oilseed", 2000, 49, 33200, 4, 20, 30, 400, 700,
  ["loamy", "sandy loam", "well-drained"], ["temperate", "subtropical"], "low", "low", "low"⟩

def canola : Crop := ⟨"Canola (Rapeseed)", "Oilseed", 2500, 45, 37350, 6, 10, 20, 400, 650,
  ["loamy", "well-drained"], ["temperate"], "medium", "low", "low"⟩

def strawberries : Crop := ⟨"Strawberries", "Fruit", 25000, 415, 664000, 6, 15, 26, 500, 800,
  ["sandy loam", "loamy", "well-drained"], ["temperate", "subtropical"],
  "medium", "high", "medium"⟩

def blueberries : Crop := ⟨"Blueberries", "Fruit", 8000, 664, 996000, 24, 15, 25, 600, 1200,
  ["acidic", "sandy loam", "well-drained"], ["temperate"], "medium", "high", "medium"⟩

def soybeans : Crop := ⟨"Soybeans", "Legume", 2800, 41, 41500, 5, 20, 30, 500, 900,
  ["loamy", "fertile", "well-drained"], ["temperate", "subtropical"], "medium", "low", "low"⟩

def chickpeas : Crop := ⟨"Chickpeas", "Legume", 1500, 99, 33200, 5, 15, 30, 300, 600,
  ["loamy", "clay loam", "well-drained"], ["temperate", "subtropical", "tropical"],
  "low", "low", "low"⟩

def cotton : Crop := ⟨"Cotton", "Fiber", 1800, 149, 83000, 6, 21, 35, 500, 1000,
  ["loamy", "clay loam", "fertile"], ["subtropical", "tropical"], "medium", "medium", "medium"⟩

def sugarcane : Crop := ⟨"Sugarcane", "Industrial", 70000, 4, 124500, 12, 20, 35, 1500, 2500,
  ["loamy", "clay loam", "fertile"], ["tropical", "subtropical"], "high", "medium", "low"⟩

def basil : Crop := ⟨"Basil (Fresh)", "Herb", 12000, 498, 249000, 3, 18, 30, 400, 600,
  ["loamy", "well-drained", "fertile"], ["temperate", "subtropical", "tropical"],
  "medium", "high", "medium"⟩

def lavender : Crop := ⟨"Lavender", "Herb", 3000, 1245, 415000, 24, 15, 30, 300, 600,
  ["sandy loam", "well-drained", "alkaline"], ["temperate", "subtropical"],
  "low", "medium", "low"⟩

/-- The 18-entry crop catalog, in source order. -/
def CROP_DATABASE : List (String × Crop) :=
  [("saffron", saffron), ("vanilla", vanilla), ("cherry_tomatoes", cherry_tomatoes),
   ("bell_peppers", bell_peppers), ("broccoli", broccoli), ("wheat", wheat),
   ("rice", rice), ("corn", corn), ("sunflower", sunflower), ("canola", canola),
   ("strawberries", strawberries), ("blueberries", blueberries), ("soybeans", soybeans),
   ("chickpeas", chickpeas), ("cotton", cotton), ("sugarcane", sugarcane),
   ("basil", basil), ("lavender", lavender)]

/-- Climate context consumed by the scorer (climate_zone,
avg_temperature, annual_rainfall_mm of the _analyze_climate dict). -/
structure ClimateCtx where
  climate_zone : String
  avg_temperature : ℚ
  annual_rainfall_mm : ℚ

/-- Soil context consumed by the scorer (primary_type, fertility,
drainage, suitable_for of the _analyze_soil_from_land_class dict). -/
structure SoilCtx where
  primary_type : String
  fertility : String
  drainage : String
  suitable_for : List String

/-- Embedding of _calculate_climate_score. -/
def calculate_climate_score (crop : Crop) (climate : ClimateCtx) : ℚ :=
  let temp := climate.avg_temperature
  let s1 : ℚ :=
    if crop.optimal_temp_lo ≤ temp ∧ temp ≤ crop.optimal_temp_hi then 2/5
    else
      let deviation := min |temp - crop.optimal_temp_lo| |temp - crop.optimal_temp_hi|
      max 0 (2/5 - deviation / 20)
  let rainfall := climate.annual_rainfall_mm
  let s2 : ℚ :=
    if crop.min_rainfall_mm ≤ rainfall ∧ rainfall ≤ crop.max_rainfall_mm then 2/5
    else
      let deviation := if rainfall < crop.min_rainfall_mm
        then crop.min_rainfall_mm - rainfall
        else rainfall - crop.max_rainfall_mm
      max 0 (2/5 - deviation / 1000)
  let s3 : ℚ := if climate.climate_zone ∈ crop.climate_zones then 1/5 else 0
  min 1 (s1 + s2 + s3)

/-- Embedding of _calculate_soil_score.  The Python substring test
"loam" in s is embedded via String.isSubstrOf. -/
def calculate_soil_score (crop : Crop) (soil : SoilCtx) : ℚ :=
  let overlap := soil.suitable_for.any (fun s => crop.soil_types.contains s)
  let s1 : ℚ :=
    if overlap then 3/5
    else if soil.suitable_for.any (fun s => s.containsSubstr "loam")
        ∧ crop.soil_types.any (fun s => s.containsSubstr "loam") then 3/10
    else 0
  let s2 : ℚ :=
    if soil.fertility = "high" then 3/10
    else if soil.fertility = "medium" then 1/5
    else 0
  let s3 : ℚ :=
    if crop.soil_types.contains "well-drained" then
      (if soil.drainage = "good" ∨ soil.drainage = "excellent" then 1/10 else 0)
    else if crop.soil_types.contains "waterlogged" then
      (if soil.drainage = "poor" then 1/10 else 0)
    else 0
  min 1 (s1 + s2 + s3)

/-- Embedding of the risk_matrix dict of _calculate_risk_score: an
outer lookup by farmer risk tolerance, an inner lookup by crop risk
level. -/
def risk_matrix (risk_tolerance : String) : Option (String → Option ℚ) :=
  if risk_tolerance = "low" then
    some (fun lv =>
      if lv = "low" then some 1
      else if lv = "medium" then some (9/10)
      else if lv = "high" then some (3/5)
      else if lv = "very high" then some (2/5)
      else none)
  else if risk_tolerance = "medium" then
    some (fun lv =>
      if lv = "low" then some (9/10)
      else if lv = "medium" then some 1
      else if lv = "high" then some (4/5)
      else if lv = "very high" then some (3/5)
      else none)
  else if risk_tolerance = "high" then
    some (fun lv =>
      if lv = "low" then some (7/10)
      else if lv = "medium" then some (9/10)
      else if lv = "high" then some 1
      else if lv = "very high" then some (9/10)
      else none)
  else none

/-- Embedding of _calculate_risk_score:
risk_matrix.get(risk_tolerance, dict()).get(risk_level, 0.7). -/
def calculate_risk_score (crop : Crop) (risk_tolerance : String) : ℚ :=
  match risk_matrix risk_tolerance with
  | none => 7/10
  | some m => (m crop.risk_level).getD (7/10)

/-- The rounded score record returned by _score_crop. -/
structure ScoreResult where
  suitability_score : ℚ
  profit_score : ℚ
  climate_score : ℚ
  soil_score : ℚ
  risk_score : ℚ
  gross_revenue_per_hectare : ℚ
  net_profit_per_hectare : ℚ
  roi_percentage : ℚ
  total_investment_inr : ℚ
  total_profit_inr : ℚ
  payback_months : ℕ
deriving DecidableEq

/-- Embedding of _score_crop. -/
def score_crop (crop : Crop) (climate : ClimateCtx) (soil : SoilCtx)
    (farm_size : ℚ) (risk_tolerance : String) : ScoreResult :=
  let climate_score := calculate_climate_score crop climate
  let soil_score := calculate_soil_score crop soil
  let gross_revenue := crop.avg_yield_kg_per_hectare * crop.avg_market_price_inr_per_kg
  let net_profit := gross_revenue - crop.investment_cost_inr_per_hectare
  let roi_percentage := net_profit / crop.investment_cost_inr_per_hectare * 100
  let risk_score := calculate_risk_score crop risk_tolerance
  let suitability_score := climate_score * (7/20) + soil_score * (7/20) + risk_score * (3/10)
  let profit_score := suitability_score * (roi_percentage / 100) * (net_profit / 10000)
  let total_investment := crop.investment_cost_inr_per_hectare * farm_size
  let total_profit := net_profit * farm_size
  ⟨pyRound suitability_score 2, pyRound profit_score 2, pyRound climate_score 2,
   pyRound soil_score 2, pyRound risk_score 2, pyRound gross_revenue 2,
   pyRound net_profit 2, pyRound roi_percentage 1, pyRound total_investment 2,
   pyRound total_profit 2, crop.growing_months⟩

/-- A catalog entry that passed the suitability floor, with its score. -/
structure ScoredEntry where
  crop_id : String
  crop_data : Crop
  score : ScoreResult
deriving DecidableEq

/-- The scoring loop of get_crop_suggestions: keep a crop only when its
(rounded) suitability_score exceeds 0.3. -/
def crop_scores (climate : ClimateCtx) (soil : SoilCtx) (farm_size : ℚ)
    (risk_tolerance : String) : List ScoredEntry :=
  CROP_DATABASE.filterMap (fun ce =>
    let s := score_crop ce.2 climate soil farm_size risk_tolerance
    if s.suitability_score > 3/10 then some ⟨ce.1, ce.2, s⟩ else none)

/-- Embedding of the ranking step of get_crop_suggestions: sort the
eligible crops by profit_score descending (Python stable sort, matched
by mergeSort keeping the left element on ties) and keep the top 10. -/
def get_crop_suggestions (climate : ClimateCtx) (soil : SoilCtx) (farm_size : ℚ)
    (risk_tolerance : String) : List ScoredEntry :=
  ((crop_scores climate soil farm_size risk_tolerance).mergeSort
    (fun a b => decide (b.score.profit_score ≤ a.score.profit_score))).take 10

/-- Unrounded suitability score
0.35 * climateScore + 0.35 * soilScore + 0.30 * riskScore, as the
specification words it. -/
def suitability_raw (crop : Crop) (climate : ClimateCtx) (soil : SoilCtx)
    (risk_tolerance : String) : ℚ :=
  calculate_climate_score crop climate * (7/20) + calculate_soil_score crop soil * (7/20)
    + calculate_risk_score crop risk_tolerance * (3/10)



/-- C10: any farmer risk tolerance outside low / medium / high makes
the outer dict lookup miss, so _calculate_risk_score returns the 0.7
default regardless of the crop's risk level, silently rather than
raising. -/
theorem calculate_risk_score_unknown_tolerance (crop : Crop) (risk_tolerance : String)
    (h1 : risk_tolerance ≠ "low") (h2 : risk_tolerance ≠ "medium")
    (h3 : risk_tolerance ≠ "high") :
    calculate_risk_score crop risk_tolerance = 7/10 := by
  unfold calculate_risk_score risk_matrix
  rw [if_neg h1, if_neg h2, if_neg h3]

/-- Witness for C10 at a concrete crop and the tolerance "aggressive". -/
theorem calculate_risk_score_unknown_tolerance_witness :
    ("aggressive" ≠ "low") ∧ ("aggressive" ≠ "medium") ∧ ("aggressive" ≠ "high") ∧
    calculate_risk_score saffron "aggressive" = 7/10 :=
  ⟨by decide, by decide, by decide,
   calculate_risk_score_unknown_tolerance saffron "aggressive"
     (by decide) (by decide) (by decide)⟩

/-- Temperature component of the climate score, as the specification
words it: 0.4 inside the optimal range, else a linear decay in the
distance to the nearer endpoint with divisor 20, floored at 0. -/
def tempComponentSpec (crop : Crop) (t : ℚ) : ℚ :=
  if crop.optimal_temp_lo ≤ t ∧ t ≤ crop.optimal_temp_hi then 2/5
  else max 0 (2/5 - (min |t - crop.optimal_temp_lo| |t - crop.optimal_temp_hi|) / 20)

/-- Rainfall component of the climate score, as the specification words
it: 0.4 inside the range, else a linear decay in the distance to the
nearer endpoint with divisor 1000, floored at 0. -/
def rainComponentSpec (crop : Crop) (r : ℚ) : ℚ :=
  if crop.min_rainfall_mm ≤ r ∧ r ≤ crop.max_rainfall_mm then 2/5
  else max 0 (2/5 - (min |r - crop.min_rainfall_mm| |r - crop.max_rainfall_mm|) / 1000)

theorem rain_deviation_eq (lo hi r : ℚ) (h : lo ≤ hi) (hout : ¬(lo ≤ r ∧ r ≤ hi)) :
    (if r < lo then lo - r else r - hi) = min |r - lo| |r - hi| := by
  push_neg at hout
  by_cases h1 : r < lo
  · rw [if_pos h1, abs_of_nonpos (by linarith), abs_of_nonpos (by linarith)]
    rw [neg_sub, neg_sub]
    exact (min_eq_left (by linarith)).symm
  · rw [if_neg h1]
    push_neg at h1
    have h2 : hi < r := hout h1
    rw [abs_of_nonneg (by linarith), abs_of_nonneg (by linarith)]
    exact (min_eq_right (by linarith)).symm

/-- C7: the climate score is exactly the capped sum of the
specification's temperature component (0.4 inside the optimal range,
else linear decay with divisor 20), the rainfall component (same with
divisor 1000), and the 0.2 zone bonus; in particular the temperature
component is exactly 0.4 whenever the average temperature lies inside
the optimal range. -/
theorem calculate_climate_score_spec (crop : Crop) (climate : ClimateCtx)
    (hr : crop.min_rainfall_mm ≤ crop.max_rainfall_mm) :
    calculate_climate_score crop climate
      = min 1 (tempComponentSpec crop climate.avg_temperature
          + rainComponentSpec crop climate.annual_rainfall_mm
          + (if climate.climate_zone ∈ crop.climate_zones then 1/5 else 0)) ∧
    (crop.optimal_temp_lo ≤ climate.avg_temperature ∧
        climate.avg_temperature ≤ crop.optimal_temp_hi →
      tempComponentSpec crop climate.avg_temperature = 2/5) ∧
    (¬(crop.optimal_temp_lo ≤ climate.avg_temperature ∧
        climate.avg_temperature ≤ crop.optimal_temp_hi) →
      tempComponentSpec crop climate.avg_temperature
        = max 0 (2/5 - (min |climate.avg_temperature - crop.optimal_temp_lo|
            |climate.avg_temperature - crop.optimal_temp_hi|) / 20)) := by
  refine ⟨?_, ?_, ?_⟩
  · simp only [calculate_climate_score, tempComponentSpec, rainComponentSpec]
    by_cases hin : crop.min_rainfall_mm ≤ climate.annual_rainfall_mm ∧
        climate.annual_rainfall_mm ≤ crop.max_rainfall_mm
    · rw [if_pos hin, if_pos hin]
    · rw [if_neg hin, if_neg hin,
        rain_deviation_eq crop.min_rainfall_mm crop.max_rainfall_mm
          climate.annual_rainfall_mm hr hin]
  · intro hin
    unfold tempComponentSpec
    rw [if_pos hin]
  · intro hout
    unfold tempComponentSpec
    rw [if_neg hout]

/-- Witness for C7 at the scenario the specification names: a crop with
optimal temperature range [20, 30] (the bell pepper profile) scored at
average temperature 25, inside the range, receives temperature
component exactly 0.4. -/
theorem calculate_climate_score_spec_witness :
    bell_peppers.min_rainfall_mm ≤ bell_peppers.max_rainfall_mm ∧
    tempComponentSpec bell_peppers 25 = 2/5 := by
  have h := calculate_climate_score_spec bell_peppers ⟨"temperate", 25, 700⟩
    (by norm_num [bell_peppers])
  exact ⟨by norm_num [bell_peppers], h.2.1 (by norm_num [bell_peppers])⟩



/-! ## crop_suggestion_service recommendation assembler -/

/-- One element of the rotation sequence. -/
structure RotEntry where
  crop : String
  duration_months : ℕ
  category : String
  benefit : String
deriving DecidableEq

/-- Embedding of _get_rotation_benefit. -/
def get_rotation_benefit (category : String) : String :=
  if category = "Legume" then "Fixes nitrogen in soil"
  else if category = "Grain" then "Builds organic matter"
  else if category = "Vegetable" then "Quick cash crop"
  else if category = "Oilseed" then "Deep root system improves soil"
  else if category = "Herb" then "Pest control through diversity"
  else if category = "Fruit" then "Long-term investment"
  else "Diversifies production"

/-- Result shape of _generate_rotation_plan: either the explicit
insufficient-data dict or the full plan dict. -/
inductive RotationPlan
  | insufficientData (recommendation : String)
  | plan (rotation_type : String) (sequence : List RotEntry)
      (total_cycle_months : ℕ) (benefits : List String)
deriving DecidableEq

def RotationPlan.isInsufficientData : RotationPlan → Bool
  | RotationPlan.insufficientData _ => true
  | _ => false

/-- Embedding of _generate_rotation_plan. -/
def generate_rotation_plan (top_crops : List ScoredEntry) : RotationPlan :=
  if top_crops.length < 2 then
    RotationPlan.insufficientData "Insufficient data for rotation plan"
  else
    let seq := top_crops.map (fun c =>
      RotEntry.mk c.crop_data.name c.crop_data.growing_months c.crop_data.category
        (get_rotation_benefit c.crop_data.category))
    RotationPlan.plan "Sequential high-profit rotation" seq
      ((seq.map (fun e => e.duration_months)).sum)
      ["Maximizes annual profit", "Reduces pest and disease pressure",
       "Maintains soil fertility", "Diversifies income streams"]

/-- Result shape of _generate_seasonal_calendar.  The insufficientData
constructor expresses the degraded result the specification claims; the
source function below never produces it (it has a single unconditional
return). -/
inductive SeasonalCalendar
  | insufficientData (msg : String)
  | calendar (spring summer fall winter : List String)
deriving DecidableEq

def SeasonalCalendar.isInsufficientData : SeasonalCalendar → Bool
  | SeasonalCalendar.insufficientData _ => true
  | _ => false

/-- Embedding of _generate_seasonal_calendar: each crop is appended to
the season lists its optimal temperature range selects. -/
def generate_seasonal_calendar (top_crops : List ScoredEntry) : SeasonalCalendar :=
  let r := top_crops.foldl (fun acc c =>
    let lo := c.crop_data.optimal_temp_lo
    let hi := c.crop_data.optimal_temp_hi
    let nm := c.crop_data.name
    let spring := if 15 ≤ lo ∧ lo ≤ 25 then acc.1 ++ [nm] else acc.1
    let summer := if 20 ≤ hi ∧ hi ≤ 35 then acc.2.1 ++ [nm] else acc.2.1
    let fall := if 15 ≤ lo ∧ lo ≤ 25 then acc.2.2.1 ++ [nm] else acc.2.2.1
    let winter := if lo < 15 then acc.2.2.2 ++ [nm] else acc.2.2.2
    (spring, summer, fall, winter)) ([], [], [], [])
  SeasonalCalendar.calendar r.1 r.2.1 r.2.2.1 r.2.2.2

/-- Result shape of _get_market_insights.  As with the calendar, the
insufficientData constructor is only the specification's claimed shape;
the source function never produces it. -/
inductive MarketInsights
  | insufficientData (msg : String)
  | insights (portfolio_strategy : String)
      (total_investment_required_inr expected_annual_profit_inr
        portfolio_roi_percentage : ℚ)
      (market_trends risk_mitigation : List String)
deriving DecidableEq

def MarketInsights.isInsufficientData : MarketInsights → Bool
  | MarketInsights.insufficientData _ => true
  | _ => false

/-- Embedding of _get_market_insights; the average ROI guards against
the empty list (sum/len if top_crops else 0). -/
def get_market_insights (top_crops : List ScoredEntry) : MarketInsights :=
  let total_investment := (top_crops.map (fun c => c.score.total_investment_inr)).sum
  let total_profit := (top_crops.map (fun c => c.score.total_profit_inr)).sum
  let avg_roi : ℚ :=
    if top_crops.isEmpty then 0
    else (top_crops.map (fun c => c.score.roi_percentage)).sum / top_crops.length
  MarketInsights.insights "Diversified high-profit approach"
    (pyRound total_investment 2) (pyRound total_profit 2) (pyRound avg_roi 1)
    ["Premium vegetables show strong demand",
     "Organic certification can increase prices by 20-30 percent",
     "Direct-to-consumer sales improve margins"]
    ["Diversify across multiple crops", "Stagger planting dates",
     "Build relationships with multiple buyers", "Consider value-added processing"]

/-- C6 (amended): with fewer than 2 crops, only the rotation plan
degrades to the explicit insufficient-data result; the seasonal
calendar and the market insights return their ordinary structured
results (with empty season lists resp. zero totals) and never an
insufficient-data marker, though none of the three raises. -/
theorem recommendation_insufficient_behavior (top_crops : List ScoredEntry)
    (h : top_crops.length < 2) :
    generate_rotation_plan top_crops
      = RotationPlan.insufficientData "Insufficient data for rotation plan" ∧
    (generate_seasonal_calendar top_crops).isInsufficientData = false ∧
    (get_market_insights top_crops).isInsufficientData = false := by
  refine ⟨?_, rfl, rfl⟩
  rw [generate_rotation_plan, if_pos h]

/-- Witness for the amended C6 at the empty list. -/
theorem recommendation_insufficient_behavior_witness :
    ([] : List ScoredEntry).length < 2 ∧
    (generate_rotation_plan []
       = RotationPlan.insufficientData "Insufficient data for rotation plan" ∧
     (generate_seasonal_calendar ([] : List ScoredEntry)).isInsufficientData = false ∧
     (get_market_insights ([] : List ScoredEntry)).isInsufficientData = false) :=
  ⟨by decide, recommendation_insufficient_behavior [] (by decide)⟩

/-! Concrete context at which no catalog crop passes the suitability
floor: an unmatched climate zone, an average temperature of 1000, a
huge rainfall, an empty compatible-soil set and an unknown risk
tolerance. -/

def ctxNoMatch : ClimateCtx := ⟨"none", 1000, 1000000⟩

def soilEmpty : SoilCtx := ⟨"x", "low", "poor", []⟩

theorem risk_matrix_unknown (rt : String) (h1 : rt ≠ "low") (h2 : rt ≠ "medium")
    (h3 : rt ≠ "high") : risk_matrix rt = none := by
  unfold risk_matrix
  rw [if_neg h1, if_neg h2, if_neg h3]

theorem calculate_risk_score_unknown (c : Crop) : calculate_risk_score c "unknown" = 7/10 := by
  unfold calculate_risk_score
  rw [risk_matrix_unknown "unknown" (by decide) (by decide) (by decide)]

theorem calculate_soil_score_soilEmpty_le (c : Crop) :
    calculate_soil_score c soilEmpty ≤ 1/10 ∧ 0 ≤ calculate_soil_score c soilEmpty := by
  unfold calculate_soil_score soilEmpty
  simp only [List.any_nil, Bool.false_eq_true, false_and, if_false]
  constructor
  · refine le_trans (min_le_right _ _) ?_
    split_ifs <;> simp_all
  · apply le_min (by norm_num)
    split_ifs <;> norm_num

theorem calculate_climate_score_ctxNoMatch (c : Crop)
    (hlo : c.optimal_temp_lo ≤ 35) (hhi : c.optimal_temp_hi ≤ 35)
    (hrbound : c.max_rainfall_mm ≤ 3500) (hrmono : c.min_rainfall_mm ≤ c.max_rainfall_mm)
    (hz : ("none" : String) ∉ c.climate_zones) :
    calculate_climate_score c ctxNoMatch = 0 := by
  simp only [calculate_climate_score, ctxNoMatch]
  have h1 : ¬ (c.optimal_temp_lo ≤ (1000:ℚ) ∧ (1000:ℚ) ≤ c.optimal_temp_hi) := by
    intro hcc
    linarith [hcc.2]
  have h2 : ¬ (c.min_rainfall_mm ≤ (1000000:ℚ) ∧ (1000000:ℚ) ≤ c.max_rainfall_mm) := by
    intro hcc
    linarith [hcc.2]
  rw [if_neg h1, if_neg h2, if_neg hz]
  have ha : |(1000:ℚ) - c.optimal_temp_lo| = 1000 - c.optimal_temp_lo :=
    abs_of_nonneg (by linarith)
  have hb : |(1000:ℚ) - c.optimal_temp_hi| = 1000 - c.optimal_temp_hi :=
    abs_of_nonneg (by linarith)
  rw [ha, hb]
  have hnotlt : ¬ ((1000000:ℚ) < c.min_rainfall_mm) := by
    intro hcc
    linarith
  rw [if_neg hnotlt]
  have htcomp : (0:ℚ) ⊔ (2/5 - ((1000 - c.optimal_temp_lo) ⊓ (1000 - c.optimal_temp_hi)) / 20)
      = 0 := by
    apply max_eq_left
    have h965 : (965:ℚ) ≤ (1000 - c.optimal_temp_lo) ⊓ (1000 - c.optimal_temp_hi) :=
      le_min (by linarith) (by linarith)
    linarith
  have hrcomp : (0:ℚ) ⊔ (2/5 - ((1000000:ℚ) - c.max_rainfall_mm) / 1000) = 0 := by
    apply max_eq_left
    linarith
  rw [htcomp, hrcomp]
  norm_num


theorem score_crop_ctxNoMatch_excluded (c : Crop)
    (hlo : c.optimal_temp_lo ≤ 35) (hhi : c.optimal_temp_hi ≤ 35)
    (hrbound : c.max_rainfall_mm ≤ 3500) (hrmono : c.min_rainfall_mm ≤ c.max_rainfall_mm)
    (hz : ("none" : String) ∉ c.climate_zones) :
    ¬ ((score_crop c ctxNoMatch soilEmpty 1 "unknown").suitability_score > 3/10) := by
  have hcs := calculate_climate_score_ctxNoMatch c hlo hhi hrbound hrmono hz
  obtain ⟨hss_le, hss_nn⟩ := calculate_soil_score_soilEmpty_le c
  have hrs := calculate_risk_score_unknown c
  have hsuit : (score_crop c ctxNoMatch soilEmpty 1 "unknown").suitability_score
      = pyRound (calculate_climate_score c ctxNoMatch * (7/20)
          + calculate_soil_score c soilEmpty * (7/20)
          + calculate_risk_score c "unknown" * (3/10)) 2 := rfl
  rw [hsuit, hcs, hrs]
  intro hgt
  set X : ℚ := 0 * (7/20) + calculate_soil_score c soilEmpty * (7/20) + 7/10 * (3/10) with hX
  have hx_le : X ≤ 49/200 := by
    rw [hX]
    nlinarith [hss_le]
  have hb := abs_pyRound_sub_le X 2
  rw [abs_le] at hb
  have h200 : (1:ℚ) / (2 * 10 ^ 2) = 1/200 := by norm_num
  rw [h200] at hb
  have : pyRound X 2 ≤ 1/4 := by linarith [hb.2]
  linarith

theorem crop_scores_ctxNoMatch_nil :
    crop_scores ctxNoMatch soilEmpty 1 "unknown" = [] := by
  unfold crop_scores
  rw [List.filterMap_eq_nil_iff]
  intro ce hce
  unfold CROP_DATABASE at hce
  fin_cases hce <;>
    exact if_neg (score_crop_ctxNoMatch_excluded _
      (by decide) (by decide) (by decide) (by decide) (by decide))

theorem get_crop_suggestions_ctxNoMatch_nil :
    get_crop_suggestions ctxNoMatch soilEmpty 1 "unknown" = [] := by
  unfold get_crop_suggestions
  rw [crop_scores_ctxNoMatch_nil, List.mergeSort_nil]
  rfl

/-- Counterexample to C6 as stated: at a concrete context where no
catalog crop passes the suitability floor (so fewer than 2 pass), the
rotation plan degrades to the explicit insufficient-data result but the
seasonal calendar and the market insights do not - they return their
ordinary structured shapes. -/
theorem recommendation_insufficient_counterexample :
    (get_crop_suggestions ctxNoMatch soilEmpty 1 "unknown").length < 2 ∧
    (generate_rotation_plan
        ((get_crop_suggestions ctxNoMatch soilEmpty 1 "unknown").take 3)).isInsufficientData
      = true ∧
    (generate_seasonal_calendar
        ((get_crop_suggestions ctxNoMatch soilEmpty 1 "unknown").take 5)).isInsufficientData
      = false ∧
    (get_market_insights
        ((get_crop_suggestions ctxNoMatch soilEmpty 1 "unknown").take 3)).isInsufficientData
      = false := by
  rw [get_crop_suggestions_ctxNoMatch_nil]
  exact ⟨by norm_num, rfl, rfl, rfl⟩



/-! ## C4 support: behaviour of the suitability floor under rounding -/

theorem raw_ge_of_pyRound2_gt (X : ℚ) (h : 3/10 < pyRound X 2) : 61/200 ≤ X := by
  unfold pyRound at h
  have h100 : (0:ℚ) < 10^2 := by norm_num
  rw [lt_div_iff h100] at h
  have h1 : (30:ℤ) < rhe (X * 10^2) := by
    have hq : (30:ℚ) < ((rhe (X * 10^2) : ℤ) : ℚ) := by
      calc (30:ℚ) = 3/10 * 10^2 := by norm_num
        _ < _ := h
    exact_mod_cast hq
  have h2 := le_of_rhe_lt (X * 10^2) 30 h1
  linarith

theorem pyRound2_le_threshold (X : ℚ) (h : X < 61/200) : ¬ (3/10 < pyRound X 2) := by
  intro hgt
  exact absurd (raw_ge_of_pyRound2_gt X hgt) (not_le.mpr h)

/-- The rounded suitability field is exactly the Python round of the
raw weighted suitability. -/
theorem suitability_score_eq_pyRound (c : Crop) (climate : ClimateCtx) (soil : SoilCtx)
    (farm_size : ℚ) (risk_tolerance : String) :
    (score_crop c climate soil farm_size risk_tolerance).suitability_score
      = pyRound (suitability_raw c climate soil risk_tolerance) 2 := rfl

/-- Concrete context exhibiting the rounding gap of the suitability
floor: temperature 429/35 puts the saffron profile at raw suitability
exactly 0.302. -/
def ctxTie : ClimateCtx := ⟨"none", 429/35, 1000000⟩

theorem climate_score_ctxTie_eq (c : Crop) (hz : ("none" : String) ∉ c.climate_zones)
    (hrbound : c.max_rainfall_mm ≤ 3500) (hrmono : c.min_rainfall_mm ≤ c.max_rainfall_mm) :
    calculate_climate_score c ctxTie = min 1 (tempComponentSpec c (429/35)) := by
  simp only [calculate_climate_score, ctxTie]
  have h2 : ¬ (c.min_rainfall_mm ≤ (1000000:ℚ) ∧ (1000000:ℚ) ≤ c.max_rainfall_mm) := by
    intro hcc
    linarith [hcc.2]
  rw [if_neg h2, if_neg hz]
  have hnotlt : ¬ ((1000000:ℚ) < c.min_rainfall_mm) := by
    intro hcc
    linarith
  rw [if_neg hnotlt]
  have hrcomp : (0:ℚ) ⊔ (2/5 - ((1000000:ℚ) - c.max_rainfall_mm) / 1000) = 0 := by
    apply max_eq_left
    linarith
  rw [hrcomp, tempComponentSpec, add_zero, add_zero]

theorem soil_score_soilEmpty_eq (c : Crop) :
    calculate_soil_score c soilEmpty
      = min 1 (if c.soil_types.contains "well-drained" = true then 0
          else if c.soil_types.contains "waterlogged" = true then (1:ℚ)/10 else 0) := by
  unfold calculate_soil_score soilEmpty
  simp only [List.any_nil, Bool.false_eq_true, false_and, if_false]
  simp only [show (("low" : String) = "high") = False by simp,
    show (("low" : String) = "medium") = False by simp,
    show (("poor" : String) = "good" ∨ ("poor" : String) = "excellent") = False by simp,
    show (("poor" : String) = "poor") = True by simp,
    if_false, if_true, zero_add]

theorem scoreTie_saffron :
    ¬ ((score_crop saffron ctxTie soilEmpty 1 "unknown").suitability_score > 3/10) := by
  have hc : calculate_climate_score saffron ctxTie = 46/175 := by
    rw [climate_score_ctxTie_eq saffron (by decide) (by decide) (by decide)]
    norm_num [tempComponentSpec, saffron, abs, min_def, max_def]
  have hso : calculate_soil_score saffron soilEmpty = 0 := by
    rw [soil_score_soilEmpty_eq,
      if_pos (by decide : (saffron.soil_types.contains "well-drained") = true)]
    norm_num
  rw [suitability_score_eq_pyRound]
  apply pyRound2_le_threshold
  unfold suitability_raw
  rw [hc, hso, calculate_risk_score_unknown]
  norm_num

theorem scoreTie_vanilla :
    ¬ ((score_crop vanilla ctxTie soilEmpty 1 "unknown").suitability_score > 3/10) := by
  have hc : calculate_climate_score vanilla ctxTie = 0 := by
    rw [climate_score_ctxTie_eq vanilla (by decide) (by decide) (by decide)]
    norm_num [tempComponentSpec, vanilla, abs, min_def, max_def]
  have hso : calculate_soil_score vanilla soilEmpty = 0 := by
    rw [soil_score_soilEmpty_eq,
      if_pos (by decide : (vanilla.soil_types.contains "well-drained") = true)]
    norm_num
  rw [suitability_score_eq_pyRound]
  apply pyRound2_le_threshold
  unfold suitability_raw
  rw [hc, hso, calculate_risk_score_unknown]
  norm_num

theorem scoreTie_cherry_tomatoes :
    ¬ ((score_crop cherry_tomatoes ctxTie soilEmpty 1 "unknown").suitability_score > 3/10) := by
  have hc : calculate_climate_score cherry_tomatoes ctxTie = 79/700 := by
    rw [climate_score_ctxTie_eq cherry_tomatoes (by decide) (by decide) (by decide)]
    norm_num [tempComponentSpec, cherry_tomatoes, abs, min_def, max_def]
  have hso : calculate_soil_score cherry_tomatoes soilEmpty = 0 := by
    rw [soil_score_soilEmpty_eq,
      if_neg (by decide : ¬ (cherry_tomatoes.soil_types.contains "well-drained") = true),
      if_neg (by decide : ¬ (cherry_tomatoes.soil_types.contains "waterlogged") = true)]
    norm_num
  rw [suitability_score_eq_pyRound]
  apply pyRound2_le_threshold
  unfold suitability_raw
  rw [hc, hso, calculate_risk_score_unknown]
  norm_num

theorem scoreTie_bell_peppers :
    ¬ ((score_crop bell_peppers ctxTie soilEmpty 1 "unknown").suitability_score > 3/10) := by
  have hc : calculate_climate_score bell_peppers ctxTie = 9/700 := by
    rw [climate_score_ctxTie_eq bell_peppers (by decide) (by decide) (by decide)]
    norm_num [tempComponentSpec, bell_peppers, abs, min_def, max_def]
  have hso : calculate_soil_score bell_peppers soilEmpty = 0 := by
    rw [soil_score_soilEmpty_eq,
      if_pos (by decide : (bell_peppers.soil_types.contains "well-drained") = true)]
    norm_num
  rw [suitability_score_eq_pyRound]
  apply pyRound2_le_threshold
  unfold suitability_raw
  rw [hc, hso, calculate_risk_score_unknown]
  norm_num

theorem scoreTie_broccoli :
    ¬ ((score_crop broccoli ctxTie soilEmpty 1 "unknown").suitability_score > 3/10) := by
  have hc : calculate_climate_score broccoli ctxTie = 46/175 := by
    rw [climate_score_ctxTie_eq broccoli (by decide) (by decide) (by decide)]
    norm_num [tempComponentSpec, broccoli, abs, min_def, max_def]
  have hso : calculate_soil_score broccoli soilEmpty = 0 := by
    rw [soil_score_soilEmpty_eq,
      if_pos (by decide : (broccoli.soil_types.contains "well-drained") = true)]
    norm_num
  rw [suitability_score_eq_pyRound]
  apply pyRound2_le_threshold
  unfold suitability_raw
  rw [hc, hso, calculate_risk_score_unknown]
  norm_num

theorem scoreTie_wheat :
    (score_crop wheat ctxTie soilEmpty 1 "unknown").suitability_score > 3/10 := by
  have hc : calculate_climate_score wheat ctxTie = 2/5 := by
    rw [climate_score_ctxTie_eq wheat (by decide) (by decide) (by decide)]
    norm_num [tempComponentSpec, wheat, abs, min_def, max_def]
  have hso : calculate_soil_score wheat soilEmpty = 0 := by
    rw [soil_score_soilEmpty_eq,
      if_neg (by decide : ¬ (wheat.soil_types.contains "well-drained") = true),
      if_neg (by decide : ¬ (wheat.soil_types.contains "waterlogged") = true)]
    norm_num
  rw [suitability_score_eq_pyRound]
  unfold suitability_raw
  rw [hc, hso, calculate_risk_score_unknown]
  norm_num [pyRound, rhe, Int.fract]

theorem scoreTie_rice :
    ¬ ((score_crop rice ctxTie soilEmpty 1 "unknown").suitability_score > 3/10) := by
  have hc : calculate_climate_score rice ctxTie = 9/700 := by
    rw [climate_score_ctxTie_eq rice (by decide) (by decide) (by decide)]
    norm_num [tempComponentSpec, rice, abs, min_def, max_def]
  have hso : calculate_soil_score rice soilEmpty = 1/10 := by
    rw [soil_score_soilEmpty_eq,
      if_neg (by decide : ¬ (rice.soil_types.contains "well-drained") = true),
      if_pos (by decide : (rice.soil_types.contains "waterlogged") = true)]
    norm_num
  rw [suitability_score_eq_pyRound]
  apply pyRound2_le_threshold
  unfold suitability_raw
  rw [hc, hso, calculate_risk_score_unknown]
  norm_num

theorem scoreTie_corn :
    ¬ ((score_crop corn ctxTie soilEmpty 1 "unknown").suitability_score > 3/10) := by
  have hc : calculate_climate_score corn ctxTie = 79/700 := by
    rw [climate_score_ctxTie_eq corn (by decide) (by decide) (by decide)]
    norm_num [tempComponentSpec, corn, abs, min_def, max_def]
  have hso : calculate_soil_score corn soilEmpty = 0 := by
    rw [soil_score_soilEmpty_eq,
      if_pos (by decide : (corn.soil_types.contains "well-drained") = true)]
    norm_num
  rw [suitability_score_eq_pyRound]
  apply pyRound2_le_threshold
  unfold suitability_raw
  rw [hc, hso, calculate_risk_score_unknown]
  norm_num

theorem scoreTie_sunflower :
    ¬ ((score_crop sunflower ctxTie soilEmpty 1 "unknown").suitability_score > 3/10) := by
  have hc : calculate_climate_score sunflower ctxTie = 9/700 := by
    rw [climate_score_ctxTie_eq sunflower (by decide) (by decide) (by decide)]
    norm_num [tempComponentSpec, sunflower, abs, min_def, max_def]
  have hso : calculate_soil_score sunflower soilEmpty = 0 := by
    rw [soil_score_soilEmpty_eq,
      if_pos (by decide : (sunflower.soil_types.contains "well-drained") = true)]
    norm_num
  rw [suitability_score_eq_pyRound]
  apply pyRound2_le_threshold
  unfold suitability_raw
  rw [hc, hso, calculate_risk_score_unknown]
  norm_num

theorem scoreTie_canola :
    (score_crop canola ctxTie soilEmpty 1 "unknown").suitability_score > 3/10 := by
  have hc : calculate_climate_score canola ctxTie = 2/5 := by
    rw [climate_score_ctxTie_eq canola (by decide) (by decide) (by decide)]
    norm_num [tempComponentSpec, canola, abs, min_def, max_def]
  have hso : calculate_soil_score canola soilEmpty = 0 := by
    rw [soil_score_soilEmpty_eq,
      if_pos (by decide : (canola.soil_types.contains "well-drained") = true)]
    norm_num
  rw [suitability_score_eq_pyRound]
  unfold suitability_raw
  rw [hc, hso, calculate_risk_score_unknown]
  norm_num [pyRound, rhe, Int.fract]

theorem scoreTie_strawberries :
    ¬ ((score_crop strawberries ctxTie soilEmpty 1 "unknown").suitability_score > 3/10) := by
  have hc : calculate_climate_score strawberries ctxTie = 46/175 := by
    rw [climate_score_ctxTie_eq strawberries (by decide) (by decide) (by decide)]
    norm_num [tempComponentSpec, strawberries, abs, min_def, max_def]
  have hso : calculate_soil_score strawberries soilEmpty = 0 := by
    rw [soil_score_soilEmpty_eq,
      if_pos (by decide : (strawberries.soil_types.contains "well-drained") = true)]
    norm_num
  rw [suitability_score_eq_pyRound]
  apply pyRound2_le_threshold
  unfold suitability_raw
  rw [hc, hso, calculate_risk_score_unknown]
  norm_num

theorem scoreTie_blueberries :
    ¬ ((score_crop blueberries ctxTie soilEmpty 1 "unknown").suitability_score > 3/10) := by
  have hc : calculate_climate_score blueberries ctxTie = 46/175 := by
    rw [climate_score_ctxTie_eq blueberries (by decide) (by decide) (by decide)]
    norm_num [tempComponentSpec, blueberries, abs, min_def, max_def]
  have hso : calculate_soil_score blueberries soilEmpty = 0 := by
    rw [soil_score_soilEmpty_eq,
      if_pos (by decide : (blueberries.soil_types.contains "well-drained") = true)]
    norm_num
  rw [suitability_score_eq_pyRound]
  apply pyRound2_le_threshold
  unfold suitability_raw
  rw [hc, hso, calculate_risk_score_unknown]
  norm_num

theorem scoreTie_soybeans :
    ¬ ((score_crop soybeans ctxTie soilEmpty 1 "unknown").suitability_score > 3/10) := by
  have hc : calculate_climate_score soybeans ctxTie = 9/700 := by
    rw [climate_score_ctxTie_eq soybeans (by decide) (by decide) (by decide)]
    norm_num [tempComponentSpec, soybeans, abs, min_def, max_def]
  have hso : calculate_soil_score soybeans soilEmpty = 0 := by
    rw [soil_score_soilEmpty_eq,
      if_pos (by decide : (soybeans.soil_types.contains "well-drained") = true)]
    norm_num
  rw [suitability_score_eq_pyRound]
  apply pyRound2_le_threshold
  unfold suitability_raw
  rw [hc, hso, calculate_risk_score_unknown]
  norm_num

theorem scoreTie_chickpeas :
    ¬ ((score_crop chickpeas ctxTie soilEmpty 1 "unknown").suitability_score > 3/10) := by
  have hc : calculate_climate_score chickpeas ctxTie = 46/175 := by
    rw [climate_score_ctxTie_eq chickpeas (by decide) (by decide) (by decide)]
    norm_num [tempComponentSpec, chickpeas, abs, min_def, max_def]
  have hso : calculate_soil_score chickpeas soilEmpty = 0 := by
    rw [soil_score_soilEmpty_eq,
      if_pos (by decide : (chickpeas.soil_types.contains "well-drained") = true)]
    norm_num
  rw [suitability_score_eq_pyRound]
  apply pyRound2_le_threshold
  unfold suitability_raw
  rw [hc, hso, calculate_risk_score_unknown]
  norm_num

theorem scoreTie_cotton :
    ¬ ((score_crop cotton ctxTie soilEmpty 1 "unknown").suitability_score > 3/10) := by
  have hc : calculate_climate_score cotton ctxTie = 0 := by
    rw [climate_score_ctxTie_eq cotton (by decide) (by decide) (by decide)]
    norm_num [tempComponentSpec, cotton, abs, min_def, max_def]
  have hso : calculate_soil_score cotton soilEmpty = 0 := by
    rw [soil_score_soilEmpty_eq,
      if_neg (by decide : ¬ (cotton.soil_types.contains "well-drained") = true),
      if_neg (by decide : ¬ (cotton.soil_types.contains "waterlogged") = true)]
    norm_num
  rw [suitability_score_eq_pyRound]
  apply pyRound2_le_threshold
  unfold suitability_raw
  rw [hc, hso, calculate_risk_score_unknown]
  norm_num

theorem scoreTie_sugarcane :
    ¬ ((score_crop sugarcane ctxTie soilEmpty 1 "unknown").suitability_score > 3/10) := by
  have hc : calculate_climate_score sugarcane ctxTie = 9/700 := by
    rw [climate_score_ctxTie_eq sugarcane (by decide) (by decide) (by decide)]
    norm_num [tempComponentSpec, sugarcane, abs, min_def, max_def]
  have hso : calculate_soil_score sugarcane soilEmpty = 0 := by
    rw [soil_score_soilEmpty_eq,
      if_neg (by decide : ¬ (sugarcane.soil_types.contains "well-drained") = true),
      if_neg (by decide : ¬ (sugarcane.soil_types.contains "waterlogged") = true)]
    norm_num
  rw [suitability_score_eq_pyRound]
  apply pyRound2_le_threshold
  unfold suitability_raw
  rw [hc, hso, calculate_risk_score_unknown]
  norm_num

theorem scoreTie_basil :
    ¬ ((score_crop basil ctxTie soilEmpty 1 "unknown").suitability_score > 3/10) := by
  have hc : calculate_climate_score basil ctxTie = 79/700 := by
    rw [climate_score_ctxTie_eq basil (by decide) (by decide) (by decide)]
    norm_num [tempComponentSpec, basil, abs, min_def, max_def]
  have hso : calculate_soil_score basil soilEmpty = 0 := by
    rw [soil_score_soilEmpty_eq,
      if_pos (by decide : (basil.soil_types.contains "well-drained") = true)]
    norm_num
  rw [suitability_score_eq_pyRound]
  apply pyRound2_le_threshold
  unfold suitability_raw
  rw [hc, hso, calculate_risk_score_unknown]
  norm_num

theorem scoreTie_lavender :
    ¬ ((score_crop lavender ctxTie soilEmpty 1 "unknown").suitability_score > 3/10) := by
  have hc : calculate_climate_score lavender ctxTie = 46/175 := by
    rw [climate_score_ctxTie_eq lavender (by decide) (by decide) (by decide)]
    norm_num [tempComponentSpec, lavender, abs, min_def, max_def]
  have hso : calculate_soil_score lavender soilEmpty = 0 := by
    rw [soil_score_soilEmpty_eq,
      if_pos (by decide : (lavender.soil_types.contains "well-drained") = true)]
    norm_num
  rw [suitability_score_eq_pyRound]
  apply pyRound2_le_threshold
  unfold suitability_raw
  rw [hc, hso, calculate_risk_score_unknown]
  norm_num

theorem crop_scores_ctxTie :
    crop_scores ctxTie soilEmpty 1 "unknown"
      = [⟨"wheat", wheat, score_crop wheat ctxTie soilEmpty 1 "unknown"⟩,
         ⟨"canola", canola, score_crop canola ctxTie soilEmpty 1 "unknown"⟩] := by
  simp only [crop_scores, CROP_DATABASE, List.filterMap_cons, List.filterMap_nil]
  simp [scoreTie_saffron, scoreTie_vanilla, scoreTie_cherry_tomatoes, scoreTie_bell_peppers, scoreTie_broccoli, scoreTie_wheat, scoreTie_rice, scoreTie_corn, scoreTie_sunflower, scoreTie_canola, scoreTie_strawberries, scoreTie_blueberries, scoreTie_soybeans, scoreTie_chickpeas, scoreTie_cotton, scoreTie_sugarcane, scoreTie_basil, scoreTie_lavender]


/-- C4 counterexample: in context ctxTie the saffron profile has raw
suitability 0.35*climate + 0.35*soil + 0.30*risk = 151/500 = 0.302,
which exceeds the 0.3 floor, yet the returned suggestion list has
fewer than 10 entries and saffron is not among them: the code applies
the floor to the score rounded to 2 digits, and round(0.302, 2) = 0.30
is not greater than 0.3. -/
theorem get_crop_suggestions_floor_counterexample :
    3/10 < suitability_raw saffron ctxTie soilEmpty "unknown" ∧
    (get_crop_suggestions ctxTie soilEmpty 1 "unknown").length < 10 ∧
    ∀ e ∈ get_crop_suggestions ctxTie soilEmpty 1 "unknown", e.crop_id ≠ "saffron" := by
  refine ⟨?_, ?_, ?_⟩
  · have hc : calculate_climate_score saffron ctxTie = 46/175 := by
      rw [climate_score_ctxTie_eq saffron (by decide) (by decide) (by decide)]
      norm_num [tempComponentSpec, saffron, abs, min_def, max_def]
    have hso : calculate_soil_score saffron soilEmpty = 0 := by
      rw [soil_score_soilEmpty_eq,
        if_pos (by decide : (saffron.soil_types.contains "well-drained") = true)]
      norm_num
    unfold suitability_raw
    rw [hc, hso, calculate_risk_score_unknown]
    norm_num
  · unfold get_crop_suggestions
    rw [crop_scores_ctxTie]
    simp [List.length_take]
  · intro e he
    unfold get_crop_suggestions at he
    have he2 := (List.mergeSort_perm _ _).mem_iff.mp (List.mem_of_mem_take he)
    rw [crop_scores_ctxTie] at he2
    simp only [List.mem_cons, List.not_mem_nil, or_false] at he2
    rcases he2 with rfl | rfl
    · decide
    · decide

/-- C4 (amended): a catalog crop appears in the returned suggestions
only if its raw suitability 0.35*climateScore + 0.35*soilScore +
0.30*riskScore exceeds 0.3 - indeed only if it is at least 0.305,
because the floor is applied to the score rounded to 2 digits - and
the returned list is sorted by profit_score descending with at most
10 entries. The converse direction of the original claim (every crop
with raw score above 0.3 appears, up to truncation) is refuted by the
counterexample. -/
theorem get_crop_suggestions_ranking (climate : ClimateCtx) (soil : SoilCtx)
    (farm_size : ℚ) (risk_tolerance : String) :
    (get_crop_suggestions climate soil farm_size risk_tolerance).length ≤ 10 ∧
    (∀ e ∈ get_crop_suggestions climate soil farm_size risk_tolerance,
      3/10 < suitability_raw e.crop_data climate soil risk_tolerance ∧
      61/200 ≤ suitability_raw e.crop_data climate soil risk_tolerance) ∧
    (get_crop_suggestions climate soil farm_size risk_tolerance).Pairwise
      (fun a b => b.score.profit_score ≤ a.score.profit_score) := by
  refine ⟨?_, ?_, ?_⟩
  · unfold get_crop_suggestions
    simp [List.length_take]
  · intro e he
    unfold get_crop_suggestions at he
    have he3 : e ∈ crop_scores climate soil farm_size risk_tolerance :=
      (List.mergeSort_perm _ _).mem_iff.mp (List.mem_of_mem_take he)
    rw [crop_scores, List.mem_filterMap] at he3
    obtain ⟨ce, _, hsome⟩ := he3
    dsimp only at hsome
    by_cases hcond :
        (score_crop ce.2 climate soil farm_size risk_tolerance).suitability_score > 3/10
    · rw [if_pos hcond] at hsome
      rw [Option.some.injEq] at hsome
      subst hsome
      rw [suitability_score_eq_pyRound] at hcond
      have h61 := raw_ge_of_pyRound2_gt _ hcond
      exact ⟨by linarith, h61⟩
    · rw [if_neg hcond] at hsome
      exact absurd hsome (by simp)
  · have hs : ((crop_scores climate soil farm_size risk_tolerance).mergeSort
        (fun a b => decide (b.score.profit_score ≤ a.score.profit_score))).Pairwise
        (fun a b => decide (b.score.profit_score ≤ a.score.profit_score) = true) := by
      apply List.sorted_mergeSort
      · intro a b c hab hbc
        simp only [decide_eq_true_eq] at *
        exact le_trans hbc hab
      · intro a b
        simp only [Bool.or_eq_true, decide_eq_true_eq]
        exact le_total b.score.profit_score a.score.profit_score
    have hsub : List.Sublist (get_crop_suggestions climate soil farm_size risk_tolerance)
        ((crop_scores climate soil farm_size risk_tolerance).mergeSort
          (fun a b => decide (b.score.profit_score ≤ a.score.profit_score))) :=
      List.take_sublist _ _
    exact (hs.sublist hsub).imp (fun h => of_decide_eq_true h)

end GeoAgri
